import Mathlib

/-!
# Session management of the PKCS#11 provider (`src/p11/untrusted/SessionManagement.cpp`)

A shallow embedding of the six entry points `openSession`, `closeSession`,
`closeAllSessions`, `getSessionInfo`, `login` and `logout`, together with the
collaborators they drive: the session cache (`gSessionCache`), the slot
directory (`P11Crypto::Slot`) and the token (`P11Crypto::Token`).

Only `SessionManagement.cpp` is available.  The session cache and the token are
therefore modelled from the specification (each such definition says so), the
slot directory, the token's verdicts and the registry's answers to
`createSession` and `closeSession` are parameters (`Env`), and the
configuration constants are parameters (`Config`).

Every call that an entry point makes on a collaborator is appended to a trace,
so that statements such as "the token is logged out exactly once, before the
session is removed" can be expressed.
-/

namespace P11

/-! ## PKCS#11 constants used by the source (values of the PKCS#11 v2.40 headers) -/

/-- Return values are `CK_RV`, an unsigned long. -/
abbrev CK_RV := Nat

def CKR_OK : CK_RV := 0x0
def CKR_SLOT_ID_INVALID : CK_RV := 0x3
def CKR_FUNCTION_FAILED : CK_RV := 0x6
def CKR_ARGUMENTS_BAD : CK_RV := 0x7
def CKR_DEVICE_ERROR : CK_RV := 0x30
def CKR_PIN_LEN_RANGE : CK_RV := 0xA2
def CKR_SESSION_CLOSED : CK_RV := 0xB0
def CKR_SESSION_COUNT : CK_RV := 0xB1
def CKR_SESSION_HANDLE_INVALID : CK_RV := 0xB3
def CKR_SESSION_PARALLEL_NOT_SUPPORTED : CK_RV := 0xB4
def CKR_SESSION_READ_ONLY_EXISTS : CK_RV := 0xB7
def CKR_TOKEN_NOT_PRESENT : CK_RV := 0xE0
def CKR_USER_TYPE_INVALID : CK_RV := 0x103
def CKR_USER_ANOTHER_ALREADY_LOGGED_IN : CK_RV := 0x104
def CKR_CRYPTOKI_NOT_INITIALIZED : CK_RV := 0x190

def CKU_SO : Nat := 0
def CKU_USER : Nat := 1
def CKU_CONTEXT_SPECIFIC : Nat := 2

def CKF_RW_SESSION : Nat := 0x2
def CKF_SERIAL_SESSION : Nat := 0x4

/-! ## Data model -/

/-- The five authentication states of a session.  `ROPublic` is the name the
source uses (`SessionState::ROPublic`); the specification calls it `PublicRO`.
The other four constructors carry the specification's names. -/
inductive SessionState where
  | ROPublic
  | PublicRW
  | UserRO
  | UserRW
  | SOFunctionsRW
deriving DecidableEq, Repr

/-- Read-only states: `PublicRO` and `UserRO`. -/
def SessionState.readOnly : SessionState → Bool
  | .ROPublic => true
  | .UserRO => true
  | _ => false

/-- Public states: `PublicRO` and `PublicRW`. -/
def SessionState.isPublic : SessionState → Bool
  | .ROPublic => true
  | .PublicRW => true
  | _ => false

/-- Authenticated states: `UserRO`, `UserRW` and `SOFunctionsRW`. -/
def SessionState.authenticated : SessionState → Bool
  | .UserRO => true
  | .UserRW => true
  | .SOFunctionsRW => true
  | _ => false

/-- One open session (specification, section 3). -/
structure Session where
  handle : Nat
  slotId : Nat
  flags : Nat
  state : SessionState
deriving DecidableEq, Repr

/-- What `getSessionInfo` reports: slot, state and flags. -/
structure SessionInfo where
  slotID : Nat
  state : SessionState
  flags : Nat
deriving DecidableEq, Repr

/-- Modelled from the spec: the session registry class behind `gSessionCache`
is not in the available source.  It is the table of live sessions together with
the last handle handed out (monotonic allocation). -/
structure SessionCache where
  sessions : List Session
  lastHandle : Nat
deriving DecidableEq, Repr

namespace SessionCache

/-- Modelled from the spec: `count()` of the missing registry, the total
number of live sessions across all slots. -/
def count (c : SessionCache) : Nat := c.sessions.length

/-- The session stored under a handle, if any. -/
def lookup (c : SessionCache) (h : Nat) : Option Session :=
  c.sessions.find? (fun s => s.handle == h)

/-- Modelled from the spec: `find(handle)` of the missing registry, the
existence check. -/
def find (c : SessionCache) (h : Nat) : Bool := (c.lookup h).isSome

/-- Modelled from the spec: `getSlotId(handle)` of the missing registry.  The
C++ method returns a `CK_ULONG`; for an unknown handle, where the spec says it
fails, the model returns 0.  The entry points call it only after `find`
succeeded. -/
def getSlotId (c : SessionCache) (h : Nat) : Nat :=
  match c.lookup h with
  | some s => s.slotId
  | none => 0

/-- Modelled from the spec: `sessionStateExists(slotId, state)` of the missing
registry: some session of the slot is in the given state. -/
def sessionStateExists (c : SessionCache) (slotId : Nat) (st : SessionState) : Bool :=
  c.sessions.any (fun s => s.slotId == slotId && s.state == st)

/-- Modelled from the spec: the two overloads `logoutRequired(slotId)` and
`logoutRequired(slotId, handle)` of the missing registry.  Without a handle:
the slot has an authenticated session.  With a handle: that session is the
last session of the slot in an authenticated state. -/
def logoutRequired (c : SessionCache) (slotId : Nat) (h : Option Nat) : Bool :=
  match h with
  | none => c.sessions.any (fun s => s.slotId == slotId && s.state.authenticated)
  | some k =>
    c.sessions.any (fun s => s.handle == k && s.slotId == slotId && s.state.authenticated)
      && !c.sessions.any (fun s => s.handle != k && s.slotId == slotId && s.state.authenticated)

/-- Modelled from the spec: `closeSession(handle)` of the missing registry:
removes one session; false if the handle is not found. -/
def closeSession (c : SessionCache) (h : Nat) : Bool × SessionCache :=
  if c.find h then
    (true, { c with sessions := c.sessions.eraseP (fun s => s.handle == h) })
  else
    (false, c)

/-- Modelled from the spec: `closeAllSessions(slotId)` of the missing
registry: removes every session of the slot and always succeeds. -/
def closeAllSessions (c : SessionCache) (slotId : Nat) : CK_RV × SessionCache :=
  (CKR_OK, { c with sessions := c.sessions.filter (fun s => s.slotId != slotId) })

/-- Modelled from the spec: `getSessionInfo(handle, pInfo)` of the missing
registry: writes slot, state and flags; fails with the invalid-handle code if
the handle is unknown.  The second component is the content of `*pInfo`
afterwards. -/
def getSessionInfo (c : SessionCache) (h : Nat) (pInfo : SessionInfo) : CK_RV × SessionInfo :=
  match c.lookup h with
  | some s => (CKR_OK, { slotID := s.slotId, state := s.state, flags := s.flags })
  | none => (CKR_SESSION_HANDLE_INVALID, pInfo)

/-- Modelled from the spec: `createSession(slotId, flags, &sessionId)` of the
missing registry: allocates a new handle, stores the session in its initial
public state, and fails when the capacity would be exceeded.  The result is
the status, the value left in `sessionId`, and the registry afterwards. -/
def createSession (maxSessions : Nat) (c : SessionCache) (slotId flags : Nat) :
    CK_RV × Nat × SessionCache :=
  if maxSessions ≤ c.count then
    (CKR_SESSION_COUNT, 0, c)
  else
    let st := if CKF_RW_SESSION &&& flags = 0 then SessionState.ROPublic else SessionState.PublicRW
    (CKR_OK, c.lastHandle + 1,
      { sessions := c.sessions ++ [{ handle := c.lastHandle + 1, slotId := slotId,
                                     flags := flags, state := st }],
        lastHandle := c.lastHandle + 1 })

/-- Rewrite the state of every session of one slot. -/
def mapSlot (c : SessionCache) (slotId : Nat) (f : SessionState → SessionState) : SessionCache :=
  { c with
    sessions := c.sessions.map
      (fun s => if s.slotId = slotId then { s with state := f s.state } else s) }

end SessionCache

/-- Modelled from the spec: the state a session takes on a successful user
login (section 4.2): `Public*` moves to the corresponding `User*`. -/
def userLoginState : SessionState → SessionState
  | .ROPublic => .UserRO
  | .PublicRW => .UserRW
  | .UserRO => .UserRO
  | .UserRW => .UserRW
  | .SOFunctionsRW => .SOFunctionsRW

/-- Modelled from the spec: the state a session takes on a successful
security-officer login (section 4.2): `PublicRW` moves to `SOFunctionsRW`. -/
def soLoginState : SessionState → SessionState
  | .ROPublic => .ROPublic
  | .PublicRW => .SOFunctionsRW
  | .UserRO => .UserRO
  | .UserRW => .UserRW
  | .SOFunctionsRW => .SOFunctionsRW

/-- Modelled from the spec: the state a session takes on a successful login
with the given role. -/
def loginState (userType : Nat) (st : SessionState) : SessionState :=
  if userType = CKU_USER then userLoginState st
  else if userType = CKU_SO then soLoginState st
  else st

/-- Modelled from the spec: the state a session takes on a successful logout
(section 4.2): back to the corresponding `Public*` state. -/
def logoutState : SessionState → SessionState
  | .ROPublic => .ROPublic
  | .PublicRW => .PublicRW
  | .UserRO => .ROPublic
  | .UserRW => .PublicRW
  | .SOFunctionsRW => .PublicRW

/-- Configuration constants consumed by the source; their values are not in the
available source. -/
structure Config where
  maxSessionsSupported : Nat
  minPinLength : Nat
  maxPinLength : Nat

/-- The collaborators whose answers the entry points consume.
`slotValid` and `slotToken` answer `slot.valid()` and `slot.getToken() != nullptr`.
`tokenLogin` and `tokenLogout` are the status codes of the token's credential
check and of its logout.  `createSession` is the registry's `createSession`,
taken as a parameter because its failure causes are not in the available
source; `SessionCache.createSession` is the specification's version.
`closeSession` is the registry's `closeSession(handle)`: whether it removed the
session, and the registry afterwards.  It is a parameter because the registry
may report the handle gone although the earlier `find` succeeded (the session
was closed in between); `SessionCache.closeSession` is the specification's
version on an undisturbed registry. -/
structure Env where
  slotValid : Nat → Bool
  slotToken : Nat → Bool
  tokenLogin : Nat → List Nat → Nat → Nat → CK_RV
  tokenLogout : Nat → CK_RV
  createSession : SessionCache → Nat → Nat → CK_RV × Nat × SessionCache
  closeSession : SessionCache → Nat → Bool × SessionCache

/-- Calls made on the registry, the slot directory and the token. -/
inductive Call where
  | count
  | createSession (slotID flags : Nat)
  | find (h : Nat)
  | getSlotId (h : Nat)
  | logoutRequired (slotId : Nat) (h : Option Nat)
  | closeSession (h : Nat)
  | closeAllSessions (slotID : Nat)
  | sessionStateExists (slotID : Nat) (st : SessionState)
  | getSessionInfo (h : Nat)
  | slot (slotID : Nat)
  | valid (slotID : Nat)
  | getToken (slotID : Nat)
  | tokenLogin (slotID : Nat) (pin : List Nat) (len : Nat) (userType : Nat)
  | tokenLogout (slotID : Nat)
deriving DecidableEq, Repr

def Call.isTokenLogout : Call → Bool
  | .tokenLogout _ => true
  | _ => false

def Call.isTokenLogin : Call → Bool
  | .tokenLogin _ _ _ _ => true
  | _ => false

/-- The provider's global state: the answer of `isInitialized()`, the global
pointer `gSessionCache` (`none` is the null pointer), and the calls made so
far, oldest first. -/
structure World where
  isInitialized : Bool
  gSessionCache : Option SessionCache
  trace : List Call
deriving DecidableEq, Repr

namespace World

/-- The registry behind `gSessionCache`.  Every entry point returns before
dereferencing a null `gSessionCache`, so the default is never consulted. -/
def cache (w : World) : SessionCache := w.gSessionCache.getD ⟨[], 0⟩

/-- Record one call on a collaborator. -/
def call (w : World) (c : Call) : World := { w with trace := w.trace ++ [c] }

/-- Replace the registry behind `gSessionCache` (a write through the pointer). -/
def store (w : World) (c : SessionCache) : World :=
  { w with gSessionCache := w.gSessionCache.map (fun _ => c) }

end World

/-- The calls made between two worlds of one run. -/
def callsOf (before after : World) : List Call := after.trace.drop before.trace.length

/-- Modelled from the spec: `Token::login` is not in the available source.
The token checks the credential (`env.tokenLogin`); on success every session
of the slot takes its paired state (section 4.2); on failure no session
changes. -/
def Token.login (env : Env) (slotID : Nat) (pin : List Nat) (len userType : Nat)
    (c : SessionCache) : CK_RV × SessionCache :=
  let rv := env.tokenLogin slotID pin len userType
  if rv = CKR_OK then (rv, c.mapSlot slotID (loginState userType)) else (rv, c)

/-- Modelled from the spec: `Token::logout` is not in the available source.
On success every session of the slot goes back to its `Public*` state; on
failure no session changes. -/
def Token.logout (env : Env) (slotID : Nat) (c : SessionCache) : CK_RV × SessionCache :=
  let rv := env.tokenLogout slotID
  if rv = CKR_OK then (rv, c.mapSlot slotID logoutState) else (rv, c)

/-! ## The entry points of `SessionManagement.cpp` -/

/-- `openSession` (lines 35-96).  `phSession` is `none` for a null pointer and
otherwise the content of `*phSession`; the third component of the result is
its content afterwards.  `pApplication` and `notify` are `none` when null. -/
def openSession (env : Env) (cfg : Config) (w : World) (slotID flags : Nat)
    (pApplication notify : Option Nat) (phSession : Option Nat) : CK_RV × World × Option Nat :=
  if !w.isInitialized || w.gSessionCache.isNone then
    (CKR_CRYPTOKI_NOT_INITIALIZED, w, phSession)
  else if phSession.isNone || pApplication.isSome || notify.isSome then
    (CKR_ARGUMENTS_BAD, w, phSession)
  else
    let w := (w.call (.slot slotID)).call (.valid slotID)
    if !env.slotValid slotID then
      (CKR_SLOT_ID_INVALID, w, phSession)
    else
      let w := w.call (.getToken slotID)
      if !env.slotToken slotID then
        (CKR_TOKEN_NOT_PRESENT, w, phSession)
      else
        let phSession := phSession.map (fun _ => 0)
        if CKF_SERIAL_SESSION &&& flags = 0 then
          (CKR_SESSION_PARALLEL_NOT_SUPPORTED, w, phSession)
        else
          let w := w.call .count
          if w.cache.count = cfg.maxSessionsSupported then
            (CKR_SESSION_COUNT, w, phSession)
          else
            let w := w.call (.createSession slotID flags)
            let r := env.createSession w.cache slotID flags
            let w := w.store r.2.2
            if r.1 = CKR_OK then
              (r.1, w, phSession.map (fun _ => r.2.1))
            else
              (r.1, w, phSession)

/-- `logout` (lines 289-333). -/
def logout (env : Env) (w : World) (hSession : Nat) : CK_RV × World :=
  if !w.isInitialized || w.gSessionCache.isNone then
    (CKR_CRYPTOKI_NOT_INITIALIZED, w)
  else
    let w := w.call (.find hSession)
    if !w.cache.find hSession then
      (CKR_SESSION_HANDLE_INVALID, w)
    else
      let w := w.call (.getSlotId hSession)
      let slotID := w.cache.getSlotId hSession
      let w := (w.call (.slot slotID)).call (.valid slotID)
      if !env.slotValid slotID then
        (CKR_SESSION_HANDLE_INVALID, w)
      else
        let w := w.call (.getToken slotID)
        if !env.slotToken slotID then
          (CKR_TOKEN_NOT_PRESENT, w)
        else
          let w := w.call (.tokenLogout slotID)
          let r := Token.logout env slotID w.cache
          let w := w.store r.2
          if r.1 ≠ CKR_OK then (r.1, w) else (CKR_OK, w)

/-- Lines 143-150 of `closeSession`: remove the session from the cache.  The
registry's answer is `env.closeSession`. -/
def closeSessionRemove (env : Env) (w : World) (hSession : Nat) : CK_RV × World :=
  let w := w.call (.closeSession hSession)
  let r := env.closeSession w.cache hSession
  let w := w.store r.2
  if !r.1 then (CKR_SESSION_CLOSED, w) else (CKR_OK, w)

/-- `closeSession` (lines 99-154). -/
def closeSession (env : Env) (w : World) (hSession : Nat) : CK_RV × World :=
  if !w.isInitialized || w.gSessionCache.isNone then
    (CKR_CRYPTOKI_NOT_INITIALIZED, w)
  else
    let w := w.call (.find hSession)
    if !w.cache.find hSession then
      (CKR_SESSION_HANDLE_INVALID, w)
    else
      let w := w.call (.getSlotId hSession)
      let slotId := w.cache.getSlotId hSession
      let w := (w.call (.slot slotId)).call (.valid slotId)
      if !env.slotValid slotId then
        (CKR_SLOT_ID_INVALID, w)
      else
        let w := w.call (.getToken slotId)
        if !env.slotToken slotId then
          (CKR_TOKEN_NOT_PRESENT, w)
        else
          let w := w.call (.logoutRequired slotId (some hSession))
          if w.cache.logoutRequired slotId (some hSession) then
            let r := logout env w hSession
            if r.1 ≠ CKR_OK then
              (CKR_FUNCTION_FAILED, r.2)
            else
              closeSessionRemove env r.2 hSession
          else
            closeSessionRemove env w hSession

/-- Line 192 of `closeAllSessions`: remove every session of the slot. -/
def closeAllSessionsRemove (w : World) (slotID : Nat) : CK_RV × World :=
  let w := w.call (.closeAllSessions slotID)
  let r := w.cache.closeAllSessions slotID
  (r.1, w.store r.2)

/-- `closeAllSessions` (lines 157-197). -/
def closeAllSessions (env : Env) (w : World) (slotID : Nat) : CK_RV × World :=
  if !w.isInitialized || w.gSessionCache.isNone then
    (CKR_CRYPTOKI_NOT_INITIALIZED, w)
  else
    let w := (w.call (.slot slotID)).call (.valid slotID)
    if !env.slotValid slotID then
      (CKR_SLOT_ID_INVALID, w)
    else
      let w := w.call (.getToken slotID)
      if !env.slotToken slotID then
        (CKR_TOKEN_NOT_PRESENT, w)
      else
        let w := w.call (.logoutRequired slotID none)
        if w.cache.logoutRequired slotID none then
          let w := w.call (.tokenLogout slotID)
          let r := Token.logout env slotID w.cache
          let w := w.store r.2
          if r.1 ≠ CKR_OK then
            (r.1, w)
          else
            closeAllSessionsRemove w slotID
        else
          closeAllSessionsRemove w slotID

/-- `getSessionInfo` (lines 200-208).  `pInfo` is the content of `*pInfo`; the
third component of the result is its content afterwards. -/
def getSessionInfo (w : World) (hSession : Nat) (pInfo : SessionInfo) :
    CK_RV × World × SessionInfo :=
  if !w.isInitialized || w.gSessionCache.isNone then
    (CKR_CRYPTOKI_NOT_INITIALIZED, w, pInfo)
  else
    let w := w.call (.getSessionInfo hSession)
    let r := w.cache.getSessionInfo hSession pInfo
    (r.1, w, r.2)

/-- `login` (lines 211-286).  `pPin` is `none` for a null pointer. -/
def login (env : Env) (cfg : Config) (w : World) (hSession userType : Nat)
    (pPin : Option (List Nat)) (ulPinLen : Nat) : CK_RV × World :=
  if !w.isInitialized || w.gSessionCache.isNone then
    (CKR_CRYPTOKI_NOT_INITIALIZED, w)
  else
    match pPin with
    | none => (CKR_ARGUMENTS_BAD, w)
    | some pin =>
      if ulPinLen < cfg.minPinLength ∨ ulPinLen > cfg.maxPinLength then
        (CKR_PIN_LEN_RANGE, w)
      else
        let w := w.call (.find hSession)
        if !w.cache.find hSession then
          (CKR_SESSION_HANDLE_INVALID, w)
        else
          let w := w.call (.getSlotId hSession)
          let slotID := w.cache.getSlotId hSession
          let w := (w.call (.slot slotID)).call (.valid slotID)
          if !env.slotValid slotID then
            (CKR_SESSION_HANDLE_INVALID, w)
          else
            let w := w.call (.getToken slotID)
            if !env.slotToken slotID then
              (CKR_TOKEN_NOT_PRESENT, w)
            else
              let w := if CKU_SO = userType then
                  w.call (.sessionStateExists slotID .ROPublic) else w
              if CKU_SO = userType ∧ w.cache.sessionStateExists slotID .ROPublic = true then
                (CKR_SESSION_READ_ONLY_EXISTS, w)
              else if CKU_SO = userType ∨ CKU_USER = userType then
                let w := w.call (.tokenLogin slotID pin ulPinLen userType)
                let r := Token.login env slotID pin ulPinLen userType w.cache
                let w := w.store r.2
                if r.1 ≠ CKR_OK then (r.1, w) else (CKR_OK, w)
              else
                (CKR_USER_TYPE_INVALID, w)

/-! ## Sequences of `openSession` calls -/

/-- The arguments of one `openSession` call, with the collaborators' answers
during that call. -/
structure OpenCall where
  env : Env
  slotID : Nat
  flags : Nat
  pApplication : Option Nat
  notify : Option Nat
  phSession : Option Nat

/-- Run a finite sequence of `openSession` calls, one after the other. -/
def openSessions (cfg : Config) (w : World) : List OpenCall → World
  | [] => w
  | a :: rest =>
    openSessions cfg
      (openSession a.env cfg w a.slotID a.flags a.pApplication a.notify a.phSession).2.1 rest

/-- The registry's `createSession` adds exactly one session on success and
none on failure. -/
def CreateSessionCounts (env : Env) : Prop :=
  ∀ (c : SessionCache) (slotID flags : Nat),
    ((env.createSession c slotID flags).1 = CKR_OK →
        (env.createSession c slotID flags).2.2.count = c.count + 1) ∧
    ((env.createSession c slotID flags).1 ≠ CKR_OK →
        (env.createSession c slotID flags).2.2.count = c.count)

/-! ## Worked examples -/

/-- Example configuration: at most two sessions, credentials of 4 to 8 bytes. -/
def exampleConfig : Config :=
  { maxSessionsSupported := 2, minPinLength := 4, maxPinLength := 8 }

/-- Example collaborators: slot 0 is valid and holds a token; the token accepts
a user login, answers a security-officer login with
`CKR_USER_ANOTHER_ALREADY_LOGGED_IN`, and logs out successfully; the registry
creates sessions as the specification describes. -/
def exampleEnv : Env where
  slotValid := fun s => s == 0
  slotToken := fun s => s == 0
  tokenLogin := fun _ _ _ userType =>
    if userType = CKU_USER then CKR_OK else CKR_USER_ANOTHER_ALREADY_LOGGED_IN
  tokenLogout := fun _ => CKR_OK
  createSession := SessionCache.createSession 2
  closeSession := SessionCache.closeSession

/-- As `exampleEnv`, but the token's logout fails with `CKR_DEVICE_ERROR`. -/
def exampleEnvLogoutFails : Env :=
  { exampleEnv with tokenLogout := fun _ => CKR_DEVICE_ERROR }

/-- As `exampleEnv`, but at removal time the registry reports the handle already
gone (the session was closed in between) and holds no session under it. -/
def exampleEnvSessionGone : Env :=
  { exampleEnv with closeSession := fun c h => (false, (c.closeSession h).2) }

/-- An initialized provider with an empty registry. -/
def exampleWorld : World :=
  { isInitialized := true, gSessionCache := some ⟨[], 0⟩, trace := [] }

/-- One `openSession` call of the examples: a serial read-only session on slot 0. -/
def exampleOpenCall : OpenCall :=
  { env := exampleEnv, slotID := 0, flags := CKF_SERIAL_SESSION,
    pApplication := none, notify := none, phSession := some 0 }

/-- The credential used in the examples. -/
def examplePin : List Nat := [49, 50, 51, 52]

/-- One read-only session (handle 1) has been opened on slot 0. -/
def examplePublicRO : World :=
  (openSession exampleEnv exampleConfig exampleWorld 0 CKF_SERIAL_SESSION none none (some 0)).2.1

/-- One read-only session (handle 1) on slot 0, after a successful user login. -/
def exampleUserRO : World :=
  (login exampleEnv exampleConfig examplePublicRO 1 CKU_USER (some examplePin) 4).2

/-- One read-write session (handle 1) has been opened on slot 0. -/
def examplePublicRW : World :=
  (openSession exampleEnv exampleConfig exampleWorld 0 (CKF_SERIAL_SESSION ||| CKF_RW_SESSION)
    none none (some 0)).2.1

/-- One read-write session (handle 1) on slot 0, after a successful user login. -/
def exampleUserRW : World :=
  (login exampleEnv exampleConfig examplePublicRW 1 CKU_USER (some examplePin) 4).2

/-! ## Auxiliary facts -/

theorem callsOf_append (i : Bool) (g g2 : Option SessionCache) (i2 : Bool) (tr d : List Call) :
    callsOf ⟨i, g, tr⟩ ⟨i2, g2, tr ++ d⟩ = d := by
  simp [callsOf]

theorem callsOf_self (w : World) : callsOf w w = [] := by
  simp [callsOf]

theorem Token.logout_fst (env : Env) (slotID : Nat) (c : SessionCache) :
    (Token.logout env slotID c).1 = env.tokenLogout slotID := by
  simp only [Token.logout]; split <;> rfl

theorem Token.login_fst (env : Env) (slotID : Nat) (pin : List Nat) (len ut : Nat) (c : SessionCache) :
    (Token.login env slotID pin len ut c).1 = env.tokenLogin slotID pin len ut := by
  simp only [Token.login]; split <;> rfl

theorem sessionStateExists_iff (c : SessionCache) (slotId : Nat) (st : SessionState) :
    c.sessionStateExists slotId st = true ↔ ∃ s ∈ c.sessions, s.slotId = slotId ∧ s.state = st := by
  simp [SessionCache.sessionStateExists]

theorem login_run_so_blocked (env : Env) (cfg : Config) (c : SessionCache) (tr : List Call)
    (h : Nat) (pin : List Nat) (len : Nat)
    (hlo : cfg.minPinLength ≤ len) (hhi : len ≤ cfg.maxPinLength)
    (hf : c.find h = true) (hv : env.slotValid (c.getSlotId h) = true)
    (ht : env.slotToken (c.getSlotId h) = true)
    (hro : c.sessionStateExists (c.getSlotId h) .ROPublic = true) :
    login env cfg ⟨true, some c, tr⟩ h CKU_SO (some pin) len =
      (CKR_SESSION_READ_ONLY_EXISTS,
        ⟨true, some c,
          tr ++ [.find h, .getSlotId h, .slot (c.getSlotId h), .valid (c.getSlotId h),
                 .getToken (c.getSlotId h), .sessionStateExists (c.getSlotId h) .ROPublic]⟩) := by
  have h1 : ¬ len < cfg.minPinLength := by omega
  have h2 : ¬ len > cfg.maxPinLength := by omega
  simp [login, World.call, World.cache, World.store, hf, hv, ht, hro, h1, h2]

theorem login_run_so (env : Env) (cfg : Config) (c : SessionCache) (tr : List Call)
    (h : Nat) (pin : List Nat) (len : Nat)
    (hlo : cfg.minPinLength ≤ len) (hhi : len ≤ cfg.maxPinLength)
    (hf : c.find h = true) (hv : env.slotValid (c.getSlotId h) = true)
    (ht : env.slotToken (c.getSlotId h) = true)
    (hro : c.sessionStateExists (c.getSlotId h) .ROPublic = false) :
    login env cfg ⟨true, some c, tr⟩ h CKU_SO (some pin) len =
      (env.tokenLogin (c.getSlotId h) pin len CKU_SO,
        ⟨true, some (Token.login env (c.getSlotId h) pin len CKU_SO c).2,
          tr ++ [.find h, .getSlotId h, .slot (c.getSlotId h), .valid (c.getSlotId h),
                 .getToken (c.getSlotId h), .sessionStateExists (c.getSlotId h) .ROPublic,
                 .tokenLogin (c.getSlotId h) pin len CKU_SO]⟩) := by
  have h1 : ¬ len < cfg.minPinLength := by omega
  have h2 : ¬ len > cfg.maxPinLength := by omega
  by_cases hr : env.tokenLogin (c.getSlotId h) pin len CKU_SO = CKR_OK <;>
    simp [login, World.call, World.cache, World.store, hf, hv, ht, hro, h1, h2,
      Token.login_fst, hr]

theorem login_run_user (env : Env) (cfg : Config) (c : SessionCache) (tr : List Call)
    (h : Nat) (pin : List Nat) (len : Nat)
    (hlo : cfg.minPinLength ≤ len) (hhi : len ≤ cfg.maxPinLength)
    (hf : c.find h = true) (hv : env.slotValid (c.getSlotId h) = true)
    (ht : env.slotToken (c.getSlotId h) = true) :
    login env cfg ⟨true, some c, tr⟩ h CKU_USER (some pin) len =
      (env.tokenLogin (c.getSlotId h) pin len CKU_USER,
        ⟨true, some (Token.login env (c.getSlotId h) pin len CKU_USER c).2,
          tr ++ [.find h, .getSlotId h, .slot (c.getSlotId h), .valid (c.getSlotId h),
                 .getToken (c.getSlotId h),
                 .tokenLogin (c.getSlotId h) pin len CKU_USER]⟩) := by
  have h1 : ¬ len < cfg.minPinLength := by omega
  have h2 : ¬ len > cfg.maxPinLength := by omega
  have h3 : ¬ CKU_SO = CKU_USER := by decide
  by_cases hr : env.tokenLogin (c.getSlotId h) pin len CKU_USER = CKR_OK <;>
    simp [login, World.call, World.cache, World.store, hf, hv, ht, h1, h2, h3,
      Token.login_fst, hr]

theorem Token.logout_snd_of_ne (env : Env) (slotID : Nat) (c : SessionCache)
    (h : env.tokenLogout slotID ≠ CKR_OK) : (Token.logout env slotID c).2 = c := by
  simp [Token.logout, h]

theorem Token.logout_snd_of_eq (env : Env) (slotID : Nat) (c : SessionCache)
    (h : env.tokenLogout slotID = CKR_OK) :
    (Token.logout env slotID c).2 = c.mapSlot slotID logoutState := by
  simp [Token.logout, h]

theorem lookup_mapSlot (c : SessionCache) (slotId : Nat) (f : SessionState → SessionState)
    (h : Nat) :
    (c.mapSlot slotId f).lookup h =
      (c.lookup h).map (fun s => if s.slotId = slotId then { s with state := f s.state } else s) := by
  simp only [SessionCache.lookup, SessionCache.mapSlot, List.find?_map]
  congr 2
  funext s
  by_cases hs : s.slotId = slotId <;> simp [hs]

theorem find_mapSlot (c : SessionCache) (slotId : Nat) (f : SessionState → SessionState)
    (h : Nat) : (c.mapSlot slotId f).find h = c.find h := by
  simp [SessionCache.find, lookup_mapSlot]

theorem getSlotId_mapSlot (c : SessionCache) (slotId : Nat) (f : SessionState → SessionState)
    (h : Nat) : (c.mapSlot slotId f).getSlotId h = c.getSlotId h := by
  simp only [SessionCache.getSlotId, lookup_mapSlot]
  cases hl : c.lookup h with
  | none => simp
  | some s => by_cases hs : s.slotId = slotId <;> simp [hs]

theorem logout_run (env : Env) (c : SessionCache) (tr : List Call) (h : Nat)
    (hf : c.find h = true) (hv : env.slotValid (c.getSlotId h) = true)
    (ht : env.slotToken (c.getSlotId h) = true) :
    logout env ⟨true, some c, tr⟩ h =
      (env.tokenLogout (c.getSlotId h),
        ⟨true, some (Token.logout env (c.getSlotId h) c).2,
          tr ++ [.find h, .getSlotId h, .slot (c.getSlotId h), .valid (c.getSlotId h),
                 .getToken (c.getSlotId h), .tokenLogout (c.getSlotId h)]⟩) := by
  by_cases hr : env.tokenLogout (c.getSlotId h) = CKR_OK <;>
    simp [logout, World.call, World.cache, World.store, hf, hv, ht, Token.logout_fst, hr]

theorem closeSessionRemove_run (env : Env) (c : SessionCache) (tr : List Call) (h : Nat) :
    closeSessionRemove env ⟨true, some c, tr⟩ h =
      (if (env.closeSession c h).1 = true then CKR_OK else CKR_SESSION_CLOSED,
        ⟨true, some (env.closeSession c h).2, tr ++ [.closeSession h]⟩) := by
  cases hb : (env.closeSession c h).1 <;>
    simp [closeSessionRemove, World.call, World.cache, World.store, hb]

theorem closeSession_run_forced_fail (env : Env) (c : SessionCache) (tr : List Call) (h : Nat)
    (hf : c.find h = true) (hv : env.slotValid (c.getSlotId h) = true)
    (ht : env.slotToken (c.getSlotId h) = true)
    (hl : c.logoutRequired (c.getSlotId h) (some h) = true)
    (hr : env.tokenLogout (c.getSlotId h) ≠ CKR_OK) :
    closeSession env ⟨true, some c, tr⟩ h =
      (CKR_FUNCTION_FAILED, ⟨true, some c,
        tr ++ [.find h, .getSlotId h, .slot (c.getSlotId h), .valid (c.getSlotId h),
               .getToken (c.getSlotId h), .logoutRequired (c.getSlotId h) (some h),
               .find h, .getSlotId h, .slot (c.getSlotId h), .valid (c.getSlotId h),
               .getToken (c.getSlotId h), .tokenLogout (c.getSlotId h)]⟩) := by
  simp [closeSession, World.call, World.cache, World.store, hf, hv, ht, hl, logout_run, hr,
    Token.logout_snd_of_ne]

theorem closeSession_run_forced_ok (env : Env) (c : SessionCache) (tr : List Call) (h : Nat)
    (hf : c.find h = true) (hv : env.slotValid (c.getSlotId h) = true)
    (ht : env.slotToken (c.getSlotId h) = true)
    (hl : c.logoutRequired (c.getSlotId h) (some h) = true)
    (hr : env.tokenLogout (c.getSlotId h) = CKR_OK) :
    closeSession env ⟨true, some c, tr⟩ h =
      (if (env.closeSession (c.mapSlot (c.getSlotId h) logoutState) h).1 = true then CKR_OK
        else CKR_SESSION_CLOSED,
        ⟨true, some (env.closeSession (c.mapSlot (c.getSlotId h) logoutState) h).2,
        tr ++ [.find h, .getSlotId h, .slot (c.getSlotId h), .valid (c.getSlotId h),
               .getToken (c.getSlotId h), .logoutRequired (c.getSlotId h) (some h),
               .find h, .getSlotId h, .slot (c.getSlotId h), .valid (c.getSlotId h),
               .getToken (c.getSlotId h), .tokenLogout (c.getSlotId h), .closeSession h]⟩) := by
  simp [closeSession, World.call, World.cache, World.store, hf, hv, ht, hl, logout_run, hr,
    Token.logout_snd_of_eq, closeSessionRemove_run]

theorem closeSession_run_plain (env : Env) (c : SessionCache) (tr : List Call) (h : Nat)
    (hf : c.find h = true) (hv : env.slotValid (c.getSlotId h) = true)
    (ht : env.slotToken (c.getSlotId h) = true)
    (hl : c.logoutRequired (c.getSlotId h) (some h) = false) :
    closeSession env ⟨true, some c, tr⟩ h =
      (if (env.closeSession c h).1 = true then CKR_OK else CKR_SESSION_CLOSED,
        ⟨true, some (env.closeSession c h).2,
        tr ++ [.find h, .getSlotId h, .slot (c.getSlotId h), .valid (c.getSlotId h),
               .getToken (c.getSlotId h), .logoutRequired (c.getSlotId h) (some h),
               .closeSession h]⟩) := by
  simp [closeSession, World.call, World.cache, World.store, hf, hv, ht, hl,
    closeSessionRemove_run]

theorem closeSession_ok_inv (env : Env) (w : World) (h : Nat)
    (hok : (closeSession env w h).1 = CKR_OK) :
    w.isInitialized = true ∧ ∃ c, w.gSessionCache = some c ∧ c.find h = true ∧
      env.slotValid (c.getSlotId h) = true ∧ env.slotToken (c.getSlotId h) = true := by
  obtain ⟨i, g, tr⟩ := w
  cases i with
  | false => simp [closeSession, CKR_OK, CKR_CRYPTOKI_NOT_INITIALIZED] at hok
  | true =>
    cases g with
    | none => simp [closeSession, CKR_OK, CKR_CRYPTOKI_NOT_INITIALIZED] at hok
    | some c =>
      refine ⟨rfl, c, rfl, ?_⟩
      by_cases hf : c.find h = true
      · by_cases hv : env.slotValid (c.getSlotId h) = true
        · by_cases ht : env.slotToken (c.getSlotId h) = true
          · exact ⟨hf, hv, ht⟩
          · simp [closeSession, World.call, World.cache, hf, hv, ht, CKR_OK,
              CKR_TOKEN_NOT_PRESENT] at hok
        · simp [closeSession, World.call, World.cache, hf, hv, CKR_OK,
            CKR_SLOT_ID_INVALID] at hok
      · simp [closeSession, World.call, World.cache, hf, CKR_OK,
          CKR_SESSION_HANDLE_INVALID] at hok

theorem closeAllSessions_run_fail (env : Env) (c : SessionCache) (tr : List Call) (slotID : Nat)
    (hv : env.slotValid slotID = true) (ht : env.slotToken slotID = true)
    (hl : c.logoutRequired slotID none = true) (hr : env.tokenLogout slotID ≠ CKR_OK) :
    closeAllSessions env ⟨true, some c, tr⟩ slotID =
      (env.tokenLogout slotID, ⟨true, some c,
        tr ++ [.slot slotID, .valid slotID, .getToken slotID, .logoutRequired slotID none,
               .tokenLogout slotID]⟩) := by
  simp [closeAllSessions, World.call, World.cache, World.store, hv, ht, hl, hr,
    Token.logout_fst, Token.logout_snd_of_ne]

theorem Token.login_snd_of_eq (env : Env) (slotID : Nat) (pin : List Nat) (len ut : Nat)
    (c : SessionCache) (h : env.tokenLogin slotID pin len ut = CKR_OK) :
    (Token.login env slotID pin len ut c).2 = c.mapSlot slotID (loginState ut) := by
  simp [Token.login, h]

theorem login_ok_inv (env : Env) (cfg : Config) (w : World) (h ut : Nat)
    (pPin : Option (List Nat)) (len : Nat)
    (hok : (login env cfg w h ut pPin len).1 = CKR_OK) :
    ∃ c, w.isInitialized = true ∧ w.gSessionCache = some c ∧ c.find h = true ∧
      (ut = CKU_USER ∨ ut = CKU_SO) ∧
      (login env cfg w h ut pPin len).2.isInitialized = true ∧
      (login env cfg w h ut pPin len).2.gSessionCache =
        some (c.mapSlot (c.getSlotId h) (loginState ut)) := by
  obtain ⟨i, g, tr⟩ := w
  cases i with
  | false => simp [login, CKR_OK, CKR_CRYPTOKI_NOT_INITIALIZED] at hok
  | true =>
    cases g with
    | none => simp [login, CKR_OK, CKR_CRYPTOKI_NOT_INITIALIZED] at hok
    | some c =>
      cases pPin with
      | none => simp [login, CKR_OK, CKR_ARGUMENTS_BAD] at hok
      | some pin =>
        by_cases hlen : len < cfg.minPinLength ∨ len > cfg.maxPinLength
        · simp [login, hlen, CKR_OK, CKR_PIN_LEN_RANGE] at hok
        · have hlo : cfg.minPinLength ≤ len := by omega
          have hhi : len ≤ cfg.maxPinLength := by omega
          by_cases hf : c.find h = true
          · by_cases hv : env.slotValid (c.getSlotId h) = true
            · by_cases ht : env.slotToken (c.getSlotId h) = true
              · by_cases hso : ut = CKU_SO
                · subst hso
                  by_cases hro : c.sessionStateExists (c.getSlotId h) SessionState.ROPublic = true
                  · rw [login_run_so_blocked env cfg c tr h pin len hlo hhi hf hv ht hro] at hok
                    simp [CKR_OK, CKR_SESSION_READ_ONLY_EXISTS] at hok
                  · have hro2 : c.sessionStateExists (c.getSlotId h)
                        SessionState.ROPublic = false := by simpa using hro
                    rw [login_run_so env cfg c tr h pin len hlo hhi hf hv ht hro2] at hok ⊢
                    simp only at hok
                    exact ⟨c, rfl, rfl, hf, Or.inr rfl, rfl, by
                      simp [Token.login_snd_of_eq _ _ _ _ _ _ hok]⟩
                · by_cases hus : ut = CKU_USER
                  · subst hus
                    rw [login_run_user env cfg c tr h pin len hlo hhi hf hv ht] at hok ⊢
                    simp only at hok
                    exact ⟨c, rfl, rfl, hf, Or.inl rfl, rfl, by
                      simp [Token.login_snd_of_eq _ _ _ _ _ _ hok]⟩
                  · have h1 : ¬ CKU_SO = ut := fun e => hso e.symm
                    have h2 : ¬ CKU_USER = ut := fun e => hus e.symm
                    simp [login, World.call, World.cache, hlen, hf, hv, ht, h1, h2, CKR_OK,
                      CKR_USER_TYPE_INVALID] at hok
              · simp [login, World.call, World.cache, hlen, hf, hv, ht, CKR_OK,
                  CKR_TOKEN_NOT_PRESENT] at hok
            · simp [login, World.call, World.cache, hlen, hf, hv, CKR_OK,
                CKR_SESSION_HANDLE_INVALID] at hok
          · simp [login, World.call, World.cache, hlen, hf, CKR_OK,
              CKR_SESSION_HANDLE_INVALID] at hok

theorem logout_ok_inv (env : Env) (w : World) (h : Nat)
    (hok : (logout env w h).1 = CKR_OK) :
    ∃ c, w.isInitialized = true ∧ w.gSessionCache = some c ∧ c.find h = true ∧
      (logout env w h).2.isInitialized = true ∧
      (logout env w h).2.gSessionCache = some (c.mapSlot (c.getSlotId h) logoutState) := by
  obtain ⟨i, g, tr⟩ := w
  cases i with
  | false => simp [logout, CKR_OK, CKR_CRYPTOKI_NOT_INITIALIZED] at hok
  | true =>
    cases g with
    | none => simp [logout, CKR_OK, CKR_CRYPTOKI_NOT_INITIALIZED] at hok
    | some c =>
      by_cases hf : c.find h = true
      · by_cases hv : env.slotValid (c.getSlotId h) = true
        · by_cases ht : env.slotToken (c.getSlotId h) = true
          · rw [logout_run env c tr h hf hv ht] at hok ⊢
            simp only at hok
            exact ⟨c, rfl, rfl, hf, rfl, by simp [Token.logout_snd_of_eq _ _ _ hok]⟩
          · simp [logout, World.call, World.cache, hf, hv, ht, CKR_OK,
              CKR_TOKEN_NOT_PRESENT] at hok
        · simp [logout, World.call, World.cache, hf, hv, CKR_OK,
            CKR_SESSION_HANDLE_INVALID] at hok
      · simp [logout, World.call, World.cache, hf, CKR_OK,
          CKR_SESSION_HANDLE_INVALID] at hok

theorem forall₂_mapSlot (R : Session → Session → Prop) (c : SessionCache) (slotId : Nat)
    (f : SessionState → SessionState)
    (hR : ∀ s ∈ c.sessions,
      R s (if s.slotId = slotId then { s with state := f s.state } else s)) :
    List.Forall₂ R c.sessions (c.mapSlot slotId f).sessions := by
  simp only [SessionCache.mapSlot, List.forall₂_map_right_iff, List.forall₂_same]
  exact hR

theorem openSession_count_le (env : Env) (cfg : Config) (w : World) (slotID flags : Nat)
    (pApplication notify phSession : Option Nat)
    (hcs : CreateSessionCounts env)
    (hle : w.cache.count ≤ cfg.maxSessionsSupported) :
    (openSession env cfg w slotID flags pApplication notify phSession).2.1.cache.count ≤
      cfg.maxSessionsSupported := by
  obtain ⟨i, g, tr⟩ := w
  cases g with
  | none =>
    simp [openSession, World.cache, SessionCache.count]
  | some c =>
    simp only [World.cache, Option.getD_some] at hle
    obtain ⟨hs1, hs2⟩ := hcs c slotID flags
    simp only [openSession, World.call, World.cache, World.store, Option.getD_some,
      Option.map_some']
    split_ifs with h1 h2 h3 h4 h5 h6 h7 <;> simp only [Option.getD_some] <;>
      first
      | exact hle
      | exact le_of_eq_of_le (hs1 h7) (by omega)
      | exact le_of_eq_of_le (hs2 h7) hle

theorem openSessions_count_le (cfg : Config) (calls : List OpenCall) :
    ∀ w : World, (∀ a ∈ calls, CreateSessionCounts a.env) →
      w.cache.count ≤ cfg.maxSessionsSupported →
      (openSessions cfg w calls).cache.count ≤ cfg.maxSessionsSupported := by
  induction calls with
  | nil => intro w _ hle; exact hle
  | cons a rest ih =>
    intro w hcs hle
    simp only [openSessions]
    apply ih
    · intro b hb; exact hcs b (List.mem_cons_of_mem _ hb)
    · exact openSession_count_le a.env cfg w _ _ _ _ _ (hcs a (List.mem_cons_self _ _)) hle

theorem openSession_run_full (env : Env) (cfg : Config) (c : SessionCache) (tr : List Call)
    (slotID flags out : Nat)
    (hv : env.slotValid slotID = true) (ht : env.slotToken slotID = true)
    (hser : CKF_SERIAL_SESSION &&& flags ≠ 0) (hfull : c.count = cfg.maxSessionsSupported) :
    openSession env cfg ⟨true, some c, tr⟩ slotID flags none none (some out) =
      (CKR_SESSION_COUNT,
        ⟨true, some c, tr ++ [.slot slotID, .valid slotID, .getToken slotID, .count]⟩,
        some 0) := by
  simp [openSession, World.call, World.cache, hv, ht, hser, hfull]

theorem createSession_counts (m : Nat) (env : Env)
    (he : env.createSession = SessionCache.createSession m) : CreateSessionCounts env := by
  intro c slotID flags
  rw [he]
  by_cases hm : m ≤ c.sessions.length <;>
    simp [SessionCache.createSession, hm, SessionCache.count, CKR_OK, CKR_SESSION_COUNT]

/-! ## Claims about `login` -/

/-- C1 (as stated, refuted): a security-officer login on a slot whose only
session is in `UserRO` passes every controller check, a read-only session
exists on the slot, and yet the result is not `CKR_SESSION_READ_ONLY_EXISTS`:
the source only tests for `SessionState::ROPublic` (line 262). -/
theorem login_so_readOnly_counterexample :
    exampleUserRO.isInitialized = true ∧
    exampleUserRO.gSessionCache.isSome = true ∧
    exampleConfig.minPinLength ≤ 4 ∧ 4 ≤ exampleConfig.maxPinLength ∧
    exampleUserRO.cache.find 1 = true ∧
    exampleEnv.slotValid (exampleUserRO.cache.getSlotId 1) = true ∧
    exampleEnv.slotToken (exampleUserRO.cache.getSlotId 1) = true ∧
    (∃ s ∈ exampleUserRO.cache.sessions,
        s.slotId = exampleUserRO.cache.getSlotId 1 ∧
        (s.state = SessionState.ROPublic ∨ s.state = SessionState.UserRO)) ∧
    (login exampleEnv exampleConfig exampleUserRO 1 CKU_SO (some examplePin) 4).1 ≠
        CKR_SESSION_READ_ONLY_EXISTS := by
  decide

/-- C1 (amended): for a security-officer login on an initialized provider with
a non-null pin, a length within the bounds, and a live handle whose slot is
valid and has a token, the controller rejects the call with
`CKR_SESSION_READ_ONLY_EXISTS` without invoking `Token::login` if and only if
some session of the handle's slot is in `PublicRO` at call time; when none is,
the result is what `Token::login` returns. -/
theorem login_so_blocked_iff_ROPublic (env : Env) (cfg : Config) (w : World) (c : SessionCache)
    (h : Nat) (pin : List Nat) (len : Nat)
    (hi : w.isInitialized = true) (hc : w.gSessionCache = some c)
    (hlo : cfg.minPinLength ≤ len) (hhi : len ≤ cfg.maxPinLength)
    (hf : c.find h = true) (hv : env.slotValid (c.getSlotId h) = true)
    (ht : env.slotToken (c.getSlotId h) = true) :
    (((login env cfg w h CKU_SO (some pin) len).1 = CKR_SESSION_READ_ONLY_EXISTS ∧
        (callsOf w (login env cfg w h CKU_SO (some pin) len).2).countP Call.isTokenLogin = 0) ↔
      ∃ s ∈ c.sessions, s.slotId = c.getSlotId h ∧ s.state = SessionState.ROPublic) ∧
    ((¬ ∃ s ∈ c.sessions, s.slotId = c.getSlotId h ∧ s.state = SessionState.ROPublic) →
      (login env cfg w h CKU_SO (some pin) len).1 =
        env.tokenLogin (c.getSlotId h) pin len CKU_SO) := by
  obtain ⟨i, g, tr⟩ := w
  simp only at hi hc
  subst hi hc
  rw [← sessionStateExists_iff]
  by_cases hro : c.sessionStateExists (c.getSlotId h) SessionState.ROPublic = true
  · rw [login_run_so_blocked env cfg c tr h pin len hlo hhi hf hv ht hro]
    simp [callsOf_append, hro, Call.isTokenLogin]
  · have hro2 : c.sessionStateExists (c.getSlotId h) SessionState.ROPublic = false := by
      simpa using hro
    rw [login_run_so env cfg c tr h pin len hlo hhi hf hv ht hro2]
    simp [callsOf_append, hro2, Call.isTokenLogin]

/-- Witness for C1 (amended): with one `PublicRO` session open, the
security-officer login is rejected and the token is not asked. -/
theorem login_so_blocked_iff_ROPublic_witness :
    (login exampleEnv exampleConfig examplePublicRO 1 CKU_SO (some examplePin) 4).1 =
        CKR_SESSION_READ_ONLY_EXISTS ∧
    (callsOf examplePublicRO
        (login exampleEnv exampleConfig examplePublicRO 1 CKU_SO (some examplePin) 4).2).countP
      Call.isTokenLogin = 0 :=
  (login_so_blocked_iff_ROPublic exampleEnv exampleConfig examplePublicRO examplePublicRO.cache
    1 examplePin 4 (by decide) (by decide) (by decide) (by decide) (by decide) (by decide)
    (by decide)).1.2 (by decide)

/-- C10: a login with role user or security officer that passes all controller
checks invokes `Token::login` exactly once, with the same pin, length and role,
and returns exactly the code `Token::login` returned. -/
theorem login_delegates_to_token (env : Env) (cfg : Config) (w : World) (c : SessionCache)
    (h userType : Nat) (pin : List Nat) (len : Nat)
    (hu : userType = CKU_USER ∨ userType = CKU_SO)
    (hi : w.isInitialized = true) (hc : w.gSessionCache = some c)
    (hlo : cfg.minPinLength ≤ len) (hhi : len ≤ cfg.maxPinLength)
    (hf : c.find h = true) (hv : env.slotValid (c.getSlotId h) = true)
    (ht : env.slotToken (c.getSlotId h) = true)
    (hro : userType = CKU_SO →
      ∀ s ∈ c.sessions, s.slotId = c.getSlotId h → s.state ≠ SessionState.ROPublic) :
    (callsOf w (login env cfg w h userType (some pin) len).2).countP Call.isTokenLogin = 1 ∧
    (callsOf w (login env cfg w h userType (some pin) len).2).count
        (Call.tokenLogin (c.getSlotId h) pin len userType) = 1 ∧
    (login env cfg w h userType (some pin) len).1 =
        env.tokenLogin (c.getSlotId h) pin len userType := by
  obtain ⟨i, g, tr⟩ := w
  simp only at hi hc
  subst hi hc
  rcases hu with hu | hu
  · subst hu
    rw [login_run_user env cfg c tr h pin len hlo hhi hf hv ht]
    simp [callsOf_append, Call.isTokenLogin, List.count_cons]
  · subst hu
    have hro2 : c.sessionStateExists (c.getSlotId h) SessionState.ROPublic = false := by
      rw [Bool.eq_false_iff, Ne, sessionStateExists_iff]
      rintro ⟨s, hs, hslot, hst⟩
      exact hro rfl s hs hslot hst
    rw [login_run_so env cfg c tr h pin len hlo hhi hf hv ht hro2]
    simp [callsOf_append, Call.isTokenLogin, List.count_cons]

/-- Witness for C10: the security-officer login on a slot whose only session is
in `UserRO` is delegated to the token, whose refusal is returned unchanged. -/
theorem login_delegates_to_token_witness :
    (callsOf exampleUserRO
        (login exampleEnv exampleConfig exampleUserRO 1 CKU_SO (some examplePin) 4).2).countP
      Call.isTokenLogin = 1 ∧
    (callsOf exampleUserRO
        (login exampleEnv exampleConfig exampleUserRO 1 CKU_SO (some examplePin) 4).2).count
      (Call.tokenLogin (exampleUserRO.cache.getSlotId 1) examplePin 4 CKU_SO) = 1 ∧
    (login exampleEnv exampleConfig exampleUserRO 1 CKU_SO (some examplePin) 4).1 =
      exampleEnv.tokenLogin (exampleUserRO.cache.getSlotId 1) examplePin 4 CKU_SO :=
  login_delegates_to_token exampleEnv exampleConfig exampleUserRO exampleUserRO.cache
    1 CKU_SO examplePin 4 (by decide) (by decide) (by decide) (by decide) (by decide)
    (by decide) (by decide) (by decide) (by decide)

/-! ## Claims about the initialization guard -/

/-- C9: when the provider is not initialized or `gSessionCache` is null, each of
the six operations returns `CKR_CRYPTOKI_NOT_INITIALIZED`, leaves the world as it
was (in particular the trace: no call on the registry, the slot directory or the
token, and the registry untouched), and leaves its output parameter as it was. -/
theorem not_initialized_fails_fast (env : Env) (cfg : Config) (w : World)
    (hn : w.isInitialized = false ∨ w.gSessionCache = none)
    (slotID flags hSession userType ulPinLen : Nat)
    (pApplication notify phSession : Option Nat) (pPin : Option (List Nat))
    (pInfo : SessionInfo) :
    openSession env cfg w slotID flags pApplication notify phSession =
      (CKR_CRYPTOKI_NOT_INITIALIZED, w, phSession) ∧
    closeSession env w hSession = (CKR_CRYPTOKI_NOT_INITIALIZED, w) ∧
    closeAllSessions env w slotID = (CKR_CRYPTOKI_NOT_INITIALIZED, w) ∧
    getSessionInfo w hSession pInfo = (CKR_CRYPTOKI_NOT_INITIALIZED, w, pInfo) ∧
    login env cfg w hSession userType pPin ulPinLen = (CKR_CRYPTOKI_NOT_INITIALIZED, w) ∧
    logout env w hSession = (CKR_CRYPTOKI_NOT_INITIALIZED, w) := by
  have hg : (!w.isInitialized || w.gSessionCache.isNone) = true := by
    rcases hn with hn | hn <;> simp [hn]
  refine ⟨?_, ?_, ?_, ?_, ?_, ?_⟩
  · simp only [openSession, hg, if_true]
  · simp only [closeSession, hg, if_true]
  · simp only [closeAllSessions, hg, if_true]
  · simp only [getSessionInfo, hg, if_true]
  · simp only [login, hg, if_true]
  · simp only [logout, hg, if_true]

/-- Witness for C9: a torn-down provider (registry pointer null) answers every
operation with `CKR_CRYPTOKI_NOT_INITIALIZED` and records no call. -/
theorem not_initialized_fails_fast_witness :
    openSession exampleEnv exampleConfig ⟨true, none, []⟩ 0 CKF_SERIAL_SESSION none none (some 7) =
      (CKR_CRYPTOKI_NOT_INITIALIZED, ⟨true, none, []⟩, some 7) ∧
    closeSession exampleEnv ⟨true, none, []⟩ 1 = (CKR_CRYPTOKI_NOT_INITIALIZED, ⟨true, none, []⟩) ∧
    closeAllSessions exampleEnv ⟨true, none, []⟩ 0 =
      (CKR_CRYPTOKI_NOT_INITIALIZED, ⟨true, none, []⟩) ∧
    getSessionInfo ⟨true, none, []⟩ 1 ⟨9, SessionState.UserRW, 9⟩ =
      (CKR_CRYPTOKI_NOT_INITIALIZED, ⟨true, none, []⟩, ⟨9, SessionState.UserRW, 9⟩) ∧
    login exampleEnv exampleConfig ⟨true, none, []⟩ 1 CKU_USER (some examplePin) 4 =
      (CKR_CRYPTOKI_NOT_INITIALIZED, ⟨true, none, []⟩) ∧
    logout exampleEnv ⟨true, none, []⟩ 1 = (CKR_CRYPTOKI_NOT_INITIALIZED, ⟨true, none, []⟩) :=
  not_initialized_fails_fast exampleEnv exampleConfig ⟨true, none, []⟩ (Or.inr rfl)
    0 CKF_SERIAL_SESSION 1 CKU_USER 4 none none (some 7) (some examplePin)
    ⟨9, SessionState.UserRW, 9⟩

/-! ## Claims about `closeSession` -/

/-- C4: when `closeSession(h)` has to force a logout and that logout does not
return success, `closeSession` returns `CKR_FUNCTION_FAILED`, the registry's
`closeSession` is not invoked, and the registry (the live sessions, `h`
included) is unchanged.  The status of `logout` does not depend on the trace, so
the forced logout is the one evaluated on the world at call time. -/
theorem closeSession_forced_logout_failure (env : Env) (w : World) (c : SessionCache) (h : Nat)
    (hi : w.isInitialized = true) (hc : w.gSessionCache = some c)
    (hf : c.find h = true) (hv : env.slotValid (c.getSlotId h) = true)
    (ht : env.slotToken (c.getSlotId h) = true)
    (hl : c.logoutRequired (c.getSlotId h) (some h) = true)
    (hfail : (logout env w h).1 ≠ CKR_OK) :
    (closeSession env w h).1 = CKR_FUNCTION_FAILED ∧
    (∀ k, Call.closeSession k ∉ callsOf w (closeSession env w h).2) ∧
    (closeSession env w h).2.gSessionCache = some c ∧
    (closeSession env w h).2.cache.find h = true := by
  obtain ⟨i, g, tr⟩ := w
  simp only at hi hc
  subst hi hc
  rw [logout_run env c tr h hf hv ht] at hfail
  rw [closeSession_run_forced_fail env c tr h hf hv ht hl hfail]
  simp [callsOf_append, World.cache, hf]

/-- Witness for C4: the only session of slot 0 is logged in as user and the
token refuses to log out. -/
theorem closeSession_forced_logout_failure_witness :
    (closeSession exampleEnvLogoutFails exampleUserRW 1).1 = CKR_FUNCTION_FAILED ∧
    (∀ k, Call.closeSession k ∉
      callsOf exampleUserRW (closeSession exampleEnvLogoutFails exampleUserRW 1).2) ∧
    (closeSession exampleEnvLogoutFails exampleUserRW 1).2.gSessionCache =
      some exampleUserRW.cache ∧
    (closeSession exampleEnvLogoutFails exampleUserRW 1).2.cache.find 1 = true :=
  closeSession_forced_logout_failure exampleEnvLogoutFails exampleUserRW exampleUserRW.cache 1
    (by decide) (by decide) (by decide) (by decide) (by decide) (by decide) (by decide)

/-- C5 (as stated, refuted): the session with handle 1 is the slot's last
authenticated session, the token's logout fails with `CKR_DEVICE_ERROR`, and
`closeSession` does not return that code (it returns `CKR_FUNCTION_FAILED`,
line 138). -/
theorem closeSession_logout_error_counterexample :
    exampleUserRW.isInitialized = true ∧
    exampleUserRW.gSessionCache.isSome = true ∧
    exampleUserRW.cache.find 1 = true ∧
    exampleEnvLogoutFails.slotValid (exampleUserRW.cache.getSlotId 1) = true ∧
    exampleEnvLogoutFails.slotToken (exampleUserRW.cache.getSlotId 1) = true ∧
    exampleUserRW.cache.logoutRequired (exampleUserRW.cache.getSlotId 1) (some 1) = true ∧
    exampleEnvLogoutFails.tokenLogout (exampleUserRW.cache.getSlotId 1) = CKR_DEVICE_ERROR ∧
    CKR_DEVICE_ERROR ≠ CKR_OK ∧
    (closeSession exampleEnvLogoutFails exampleUserRW 1).1 ≠ CKR_DEVICE_ERROR := by
  decide

/-- C5 (amended): when `h` is the slot's last authenticated session and the
token's logout fails with error code `e`, the session remains open and
`closeSession` returns `CKR_FUNCTION_FAILED`, whatever `e` is. -/
theorem closeSession_logout_error_is_failed (env : Env) (w : World) (c : SessionCache)
    (h : Nat) (e : CK_RV)
    (hi : w.isInitialized = true) (hc : w.gSessionCache = some c)
    (hf : c.find h = true) (hv : env.slotValid (c.getSlotId h) = true)
    (ht : env.slotToken (c.getSlotId h) = true)
    (hl : c.logoutRequired (c.getSlotId h) (some h) = true)
    (he : env.tokenLogout (c.getSlotId h) = e) (hne : e ≠ CKR_OK) :
    (closeSession env w h).1 = CKR_FUNCTION_FAILED ∧
    (closeSession env w h).2.cache.find h = true ∧
    (closeSession env w h).2.cache.sessions = c.sessions := by
  obtain ⟨i, g, tr⟩ := w
  simp only at hi hc
  subst hi hc
  have hr : env.tokenLogout (c.getSlotId h) ≠ CKR_OK := by rw [he]; exact hne
  rw [closeSession_run_forced_fail env c tr h hf hv ht hl hr]
  simp [World.cache, hf]

/-- Witness for C5 (amended): the token's `CKR_DEVICE_ERROR` is reported as
`CKR_FUNCTION_FAILED` and session 1 stays open. -/
theorem closeSession_logout_error_is_failed_witness :
    (closeSession exampleEnvLogoutFails exampleUserRW 1).1 = CKR_FUNCTION_FAILED ∧
    (closeSession exampleEnvLogoutFails exampleUserRW 1).2.cache.find 1 = true ∧
    (closeSession exampleEnvLogoutFails exampleUserRW 1).2.cache.sessions =
      exampleUserRW.cache.sessions :=
  closeSession_logout_error_is_failed exampleEnvLogoutFails exampleUserRW exampleUserRW.cache 1
    CKR_DEVICE_ERROR (by decide) (by decide) (by decide) (by decide) (by decide) (by decide)
    (by decide) (by decide)

/-- C8: for every `closeSession(h)` that returns success: if
`logoutRequired(slot, h)` held at the call, `Token::logout` was invoked exactly
once, it returned success, and it was invoked before the registry's
`closeSession(h)`; if it did not hold, `Token::logout` was not invoked. -/
theorem closeSession_success_logout_order (env : Env) (w : World) (h : Nat)
    (hok : (closeSession env w h).1 = CKR_OK) :
    (w.cache.logoutRequired (w.cache.getSlotId h) (some h) = true →
      (callsOf w (closeSession env w h).2).countP Call.isTokenLogout = 1 ∧
      env.tokenLogout (w.cache.getSlotId h) = CKR_OK ∧
      ∃ pre post,
        callsOf w (closeSession env w h).2 =
          pre ++ Call.tokenLogout (w.cache.getSlotId h) :: post ∧
        Call.closeSession h ∉ pre ∧ Call.closeSession h ∈ post) ∧
    (w.cache.logoutRequired (w.cache.getSlotId h) (some h) = false →
      (callsOf w (closeSession env w h).2).countP Call.isTokenLogout = 0) := by
  obtain ⟨hi, c, hc, hf, hv, ht⟩ := closeSession_ok_inv env w h hok
  obtain ⟨i, g, tr⟩ := w
  simp only at hi hc
  subst hi hc
  simp only [World.cache, Option.getD_some]
  constructor
  · intro hl
    by_cases hr : env.tokenLogout (c.getSlotId h) = CKR_OK
    · rw [closeSession_run_forced_ok env c tr h hf hv ht hl hr]
      refine ⟨by simp [callsOf_append, Call.isTokenLogout], hr, ?_⟩
      refine ⟨[.find h, .getSlotId h, .slot (c.getSlotId h), .valid (c.getSlotId h),
               .getToken (c.getSlotId h), .logoutRequired (c.getSlotId h) (some h),
               .find h, .getSlotId h, .slot (c.getSlotId h), .valid (c.getSlotId h),
               .getToken (c.getSlotId h)], [.closeSession h], ?_, ?_, ?_⟩
      · simp [callsOf_append]
      · simp
      · simp
    · rw [closeSession_run_forced_fail env c tr h hf hv ht hl hr] at hok
      simp [CKR_FUNCTION_FAILED, CKR_OK] at hok
  · intro hl
    rw [closeSession_run_plain env c tr h hf hv ht hl]
    simp [callsOf_append, Call.isTokenLogout]

/-- Witness for C8: closing the only, logged-in session of slot 0 succeeds
after exactly one successful token logout. -/
theorem closeSession_success_logout_order_witness :
    (closeSession exampleEnv exampleUserRW 1).1 = CKR_OK ∧
    exampleUserRW.cache.logoutRequired (exampleUserRW.cache.getSlotId 1) (some 1) = true ∧
    (callsOf exampleUserRW (closeSession exampleEnv exampleUserRW 1).2).countP
      Call.isTokenLogout = 1 :=
  ⟨by decide, by decide,
    ((closeSession_success_logout_order exampleEnv exampleUserRW 1 (by decide)).1
      (by decide)).1⟩

/-! ## Claims about `closeAllSessions` -/

/-- C6: on an initialized provider with a valid slot that has a token and
`logoutRequired(slot)` true, if `Token::logout` returns an error `e` then
`closeAllSessions` returns exactly `e`, the registry's `closeAllSessions` is not
invoked, and the registry is unchanged (no session is removed). -/
theorem closeAllSessions_logout_failure (env : Env) (w : World) (c : SessionCache)
    (slotID : Nat) (e : CK_RV)
    (hi : w.isInitialized = true) (hc : w.gSessionCache = some c)
    (hv : env.slotValid slotID = true) (ht : env.slotToken slotID = true)
    (hl : c.logoutRequired slotID none = true)
    (he : env.tokenLogout slotID = e) (hne : e ≠ CKR_OK) :
    (closeAllSessions env w slotID).1 = e ∧
    (∀ k, Call.closeAllSessions k ∉ callsOf w (closeAllSessions env w slotID).2) ∧
    (closeAllSessions env w slotID).2.gSessionCache = some c := by
  obtain ⟨i, g, tr⟩ := w
  simp only at hi hc
  subst hi hc
  have hr : env.tokenLogout slotID ≠ CKR_OK := by rw [he]; exact hne
  rw [closeAllSessions_run_fail env c tr slotID hv ht hl hr]
  simp [callsOf_append, he]

/-- Witness for C6: the token refuses to log out of slot 0 while a user session
is open; the error is returned and the session stays. -/
theorem closeAllSessions_logout_failure_witness :
    (closeAllSessions exampleEnvLogoutFails exampleUserRW 0).1 = CKR_DEVICE_ERROR ∧
    (∀ k, Call.closeAllSessions k ∉
      callsOf exampleUserRW (closeAllSessions exampleEnvLogoutFails exampleUserRW 0).2) ∧
    (closeAllSessions exampleEnvLogoutFails exampleUserRW 0).2.gSessionCache =
      some exampleUserRW.cache :=
  closeAllSessions_logout_failure exampleEnvLogoutFails exampleUserRW exampleUserRW.cache 0
    CKR_DEVICE_ERROR (by decide) (by decide) (by decide) (by decide) (by decide) (by decide)
    (by decide)

/-- C2: if `login` returns success, every session of the handle's slot that was
in `PublicRO`/`PublicRW` is afterwards in `UserRO`/`UserRW` (user login), and
every `PublicRW` session is in `SOFunctionsRW` (security-officer login); if
`logout` then returns success, every session of that slot is in the `Public*`
state of the same access mode, so sessions that started public are back where
they started.  In particular a single read-write session is reported by
`getSessionInfo` as `PublicRW`, then `UserRW`, then `PublicRW`.  The transition
itself is performed by the token, modelled from the specification
(`Token.login`, `Token.logout`). -/
theorem login_logout_paired_states (env env2 : Env) (cfg : Config) (w w1 : World)
    (h userType : Nat) (pPin : Option (List Nat)) (len : Nat)
    (hlogin : login env cfg w h userType pPin len = (CKR_OK, w1)) :
    List.Forall₂
      (fun s s1 => s1.handle = s.handle ∧ s1.slotId = s.slotId ∧ s1.flags = s.flags ∧
        (s.slotId = w.cache.getSlotId h →
          (userType = CKU_USER → s.state = SessionState.ROPublic →
            s1.state = SessionState.UserRO) ∧
          (userType = CKU_USER → s.state = SessionState.PublicRW →
            s1.state = SessionState.UserRW) ∧
          (userType = CKU_SO → s.state = SessionState.PublicRW →
            s1.state = SessionState.SOFunctionsRW)))
      w.cache.sessions w1.cache.sessions ∧
    (∀ w2, logout env2 w1 h = (CKR_OK, w2) →
      List.Forall₂
        (fun s1 s2 => s2.handle = s1.handle ∧ s2.slotId = s1.slotId ∧ s2.flags = s1.flags ∧
          (s1.slotId = w.cache.getSlotId h →
            s2.state.isPublic = true ∧ s2.state.readOnly = s1.state.readOnly))
        w1.cache.sessions w2.cache.sessions ∧
      List.Forall₂
        (fun s s2 => s.slotId = w.cache.getSlotId h → s.state.isPublic = true →
          s2.state = s.state)
        w.cache.sessions w2.cache.sessions) ∧
    (userType = CKU_USER → ∀ (s : Session) (pInfo : SessionInfo),
      w.cache.sessions = [s] → s.handle = h → s.state = SessionState.PublicRW →
      (getSessionInfo w h pInfo).1 = CKR_OK ∧
      (getSessionInfo w h pInfo).2.2.state = SessionState.PublicRW ∧
      (getSessionInfo w1 h pInfo).1 = CKR_OK ∧
      (getSessionInfo w1 h pInfo).2.2.state = SessionState.UserRW ∧
      ∀ w2, logout env2 w1 h = (CKR_OK, w2) →
        (getSessionInfo w2 h pInfo).1 = CKR_OK ∧
        (getSessionInfo w2 h pInfo).2.2.state = SessionState.PublicRW) := by
  have hok : (login env cfg w h userType pPin len).1 = CKR_OK := by rw [hlogin]
  obtain ⟨c, hi, hc, hf, hu, hi1, hc1⟩ := login_ok_inv env cfg w h userType pPin len hok
  rw [hlogin] at hi1 hc1
  simp only at hi1 hc1
  have hwc : w.cache = c := by simp [World.cache, hc]
  have hw1c : w1.cache = c.mapSlot (c.getSlotId h) (loginState userType) := by
    simp [World.cache, hc1]
  -- what a successful logout leaves behind
  have hlogout : ∀ w2, logout env2 w1 h = (CKR_OK, w2) →
      w2.isInitialized = true ∧
      w2.gSessionCache = some ((c.mapSlot (c.getSlotId h) (loginState userType)).mapSlot
        (c.getSlotId h) logoutState) := by
    intro w2 hw2
    have hok2 : (logout env2 w1 h).1 = CKR_OK := by rw [hw2]
    obtain ⟨c1, -, hc2, -, hi3, hc3⟩ := logout_ok_inv env2 w1 h hok2
    rw [hc1] at hc2
    cases hc2
    rw [hw2, getSlotId_mapSlot] at hc3
    rw [hw2] at hi3
    exact ⟨hi3, hc3⟩
  refine ⟨?_, ?_, ?_⟩
  · rw [hwc, hw1c]
    apply forall₂_mapSlot
    intro s hs
    by_cases hslot : s.slotId = c.getSlotId h
    · rcases hu with hu | hu <;> subst hu <;> cases hst : s.state <;>
        simp [hslot, loginState, userLoginState, soLoginState, CKU_USER, CKU_SO]
    · simp [hslot]
  · intro w2 hw2
    obtain ⟨-, hc2⟩ := hlogout w2 hw2
    have hw2c : w2.cache = (c.mapSlot (c.getSlotId h) (loginState userType)).mapSlot
        (c.getSlotId h) logoutState := by simp [World.cache, hc2]
    rw [hwc, hw1c, hw2c]
    constructor
    · apply forall₂_mapSlot
      intro s hs
      by_cases hslot : s.slotId = c.getSlotId h
      · cases hst : s.state <;> simp [hslot, logoutState, SessionState.isPublic,
          SessionState.readOnly]
      · simp [hslot]
    · simp only [SessionCache.mapSlot, List.map_map, List.forall₂_map_right_iff,
        List.forall₂_same]
      intro s _ hslot hpub
      rcases hu with hu | hu <;> subst hu <;> cases hst : s.state <;>
        simp [hst, SessionState.isPublic] at hpub <;>
        simp [hslot, hst, loginState, userLoginState, soLoginState, logoutState, CKU_USER, CKU_SO]
  · intro hut s pInfo hs hh hst
    subst hut
    have hcs : c.sessions = [s] := by rw [← hwc]; exact hs
    have hlk : c.lookup h = some s := by simp [SessionCache.lookup, hcs, hh]
    have hslot : c.getSlotId h = s.slotId := by simp [SessionCache.getSlotId, hlk]
    refine ⟨?_, ?_, ?_, ?_, ?_⟩
    · simp [getSessionInfo, hi, hc, World.call, World.cache, SessionCache.getSessionInfo, hlk]
    · simp [getSessionInfo, hi, hc, World.call, World.cache, SessionCache.getSessionInfo, hlk,
        hst]
    · simp [getSessionInfo, hi1, hc1, World.call, World.cache, SessionCache.getSessionInfo,
        lookup_mapSlot, hlk]
    · simp [getSessionInfo, hi1, hc1, World.call, World.cache, SessionCache.getSessionInfo,
        lookup_mapSlot, hlk, hslot, hst, loginState, userLoginState]
    · intro w2 hw2
      obtain ⟨hi2, hc2⟩ := hlogout w2 hw2
      constructor
      · simp [getSessionInfo, hi2, hc2, World.call, World.cache, SessionCache.getSessionInfo,
          lookup_mapSlot, hlk]
      · simp [getSessionInfo, hi2, hc2, World.call, World.cache, SessionCache.getSessionInfo,
          lookup_mapSlot, hlk, hslot, hst, loginState, userLoginState, logoutState]

/-- Witness for C2: one read-write session on slot 0; user login, then logout. -/
theorem login_logout_paired_states_witness :
    (getSessionInfo examplePublicRW 1 ⟨0, SessionState.ROPublic, 0⟩).2.2.state =
      SessionState.PublicRW ∧
    (getSessionInfo exampleUserRW 1 ⟨0, SessionState.ROPublic, 0⟩).2.2.state =
      SessionState.UserRW ∧
    (getSessionInfo (logout exampleEnv exampleUserRW 1).2 1
      ⟨0, SessionState.ROPublic, 0⟩).2.2.state = SessionState.PublicRW :=
  have key := (login_logout_paired_states exampleEnv exampleEnv exampleConfig examplePublicRW
    exampleUserRW 1 CKU_USER (some examplePin) 4 (by decide)).2.2 rfl
    ⟨1, 0, 6, SessionState.PublicRW⟩ ⟨0, SessionState.ROPublic, 0⟩ (by decide) (by decide)
    (by decide)
  ⟨key.2.1, key.2.2.2.1, (key.2.2.2.2 (logout exampleEnv exampleUserRW 1).2 (by decide)).2⟩

/-! ## Claims about `openSession` -/

/-- C3: starting from an empty registry, after every finite sequence of
`openSession` calls the live session count is at most `maxSessionsSupported`,
assuming the registry's `createSession` adds exactly one session on success and
none on failure; and every `openSession` call that passes the earlier checks
while the count equals `maxSessionsSupported` returns `CKR_SESSION_COUNT` without
invoking `createSession` (the registry is left as it was). -/
theorem openSession_capacity (cfg : Config) (w : World) (calls : List OpenCall)
    (hempty : w.cache.sessions = [])
    (hcs : ∀ a ∈ calls, CreateSessionCounts a.env) :
    (openSessions cfg w calls).cache.count ≤ cfg.maxSessionsSupported ∧
    ∀ (env : Env) (w2 : World) (c : SessionCache) (slotID flags out : Nat),
      w2.isInitialized = true → w2.gSessionCache = some c →
      env.slotValid slotID = true → env.slotToken slotID = true →
      CKF_SERIAL_SESSION &&& flags ≠ 0 →
      c.count = cfg.maxSessionsSupported →
      (openSession env cfg w2 slotID flags none none (some out)).1 = CKR_SESSION_COUNT ∧
      (∀ s f, Call.createSession s f ∉
        callsOf w2 (openSession env cfg w2 slotID flags none none (some out)).2.1) ∧
      (openSession env cfg w2 slotID flags none none (some out)).2.1.gSessionCache = some c := by
  constructor
  · apply openSessions_count_le cfg calls w hcs
    simp [SessionCache.count, hempty]
  · intro env w2 c slotID flags out hi hc hv ht hser hfull
    obtain ⟨i, g, tr⟩ := w2
    simp only at hi hc
    subst hi hc
    rw [openSession_run_full env cfg c tr slotID flags out hv ht hser hfull]
    simp [callsOf_append]

/-- Witness for C3: with a maximum of two sessions, three opens from the empty
registry leave at most two sessions, and an open on the full registry returns
`CKR_SESSION_COUNT`. -/
theorem openSession_capacity_witness :
    (openSessions exampleConfig exampleWorld
      [exampleOpenCall, exampleOpenCall, exampleOpenCall]).cache.count ≤
        exampleConfig.maxSessionsSupported ∧
    (openSession exampleEnv exampleConfig
      (openSessions exampleConfig exampleWorld [exampleOpenCall, exampleOpenCall])
      0 CKF_SERIAL_SESSION none none (some 7)).1 = CKR_SESSION_COUNT :=
  have key := openSession_capacity exampleConfig exampleWorld
    [exampleOpenCall, exampleOpenCall, exampleOpenCall] (by decide)
    (fun a ha => by
      have ha2 : a = exampleOpenCall := by simpa using ha
      subst ha2
      exact createSession_counts 2 exampleOpenCall.env rfl)
  ⟨key.1,
   (key.2 exampleEnv (openSessions exampleConfig exampleWorld [exampleOpenCall, exampleOpenCall])
      (openSessions exampleConfig exampleWorld [exampleOpenCall, exampleOpenCall]).cache
      0 CKF_SERIAL_SESSION 7 (by decide) (by decide) (by decide) (by decide) (by decide)
      (by decide)).1⟩

/-! ## Further claims about `login` -/


theorem login_run_pinLen (env : Env) (cfg : Config) (w : World) (h ut : Nat) (pin : List Nat)
    (len : Nat) (hi : w.isInitialized = true) (hc : w.gSessionCache.isSome = true)
    (hlen : len < cfg.minPinLength ∨ len > cfg.maxPinLength) :
    login env cfg w h ut (some pin) len = (CKR_PIN_LEN_RANGE, w) := by
  obtain ⟨i, g, tr⟩ := w
  simp only at hi hc
  subst hi
  cases g with
  | none => simp at hc
  | some c => simp [login, hlen]

theorem login_run_noHandle (env : Env) (cfg : Config) (c : SessionCache) (tr : List Call)
    (h ut : Nat) (pin : List Nat) (len : Nat)
    (hlo : cfg.minPinLength ≤ len) (hhi : len ≤ cfg.maxPinLength)
    (hf : c.find h = false) :
    login env cfg ⟨true, some c, tr⟩ h ut (some pin) len =
      (CKR_SESSION_HANDLE_INVALID, ⟨true, some c, tr ++ [.find h]⟩) := by
  have h1 : ¬ len < cfg.minPinLength := by omega
  have h2 : ¬ len > cfg.maxPinLength := by omega
  simp [login, World.call, World.cache, hf, h1, h2]

theorem login_run_noSlot (env : Env) (cfg : Config) (c : SessionCache) (tr : List Call)
    (h ut : Nat) (pin : List Nat) (len : Nat)
    (hlo : cfg.minPinLength ≤ len) (hhi : len ≤ cfg.maxPinLength)
    (hf : c.find h = true) (hv : env.slotValid (c.getSlotId h) = false) :
    login env cfg ⟨true, some c, tr⟩ h ut (some pin) len =
      (CKR_SESSION_HANDLE_INVALID,
        ⟨true, some c,
          tr ++ [.find h, .getSlotId h, .slot (c.getSlotId h), .valid (c.getSlotId h)]⟩) := by
  have h1 : ¬ len < cfg.minPinLength := by omega
  have h2 : ¬ len > cfg.maxPinLength := by omega
  simp [login, World.call, World.cache, hf, hv, h1, h2]

theorem login_run_noToken (env : Env) (cfg : Config) (c : SessionCache) (tr : List Call)
    (h ut : Nat) (pin : List Nat) (len : Nat)
    (hlo : cfg.minPinLength ≤ len) (hhi : len ≤ cfg.maxPinLength)
    (hf : c.find h = true) (hv : env.slotValid (c.getSlotId h) = true)
    (ht : env.slotToken (c.getSlotId h) = false) :
    login env cfg ⟨true, some c, tr⟩ h ut (some pin) len =
      (CKR_TOKEN_NOT_PRESENT,
        ⟨true, some c,
          tr ++ [.find h, .getSlotId h, .slot (c.getSlotId h), .valid (c.getSlotId h),
                 .getToken (c.getSlotId h)]⟩) := by
  have h1 : ¬ len < cfg.minPinLength := by omega
  have h2 : ¬ len > cfg.maxPinLength := by omega
  simp [login, World.call, World.cache, hf, hv, ht, h1, h2]

theorem login_run_other (env : Env) (cfg : Config) (c : SessionCache) (tr : List Call)
    (h ut : Nat) (pin : List Nat) (len : Nat)
    (hso : ut ≠ CKU_SO) (hus : ut ≠ CKU_USER)
    (hlo : cfg.minPinLength ≤ len) (hhi : len ≤ cfg.maxPinLength)
    (hf : c.find h = true) (hv : env.slotValid (c.getSlotId h) = true)
    (ht : env.slotToken (c.getSlotId h) = true) :
    login env cfg ⟨true, some c, tr⟩ h ut (some pin) len =
      (CKR_USER_TYPE_INVALID,
        ⟨true, some c,
          tr ++ [.find h, .getSlotId h, .slot (c.getSlotId h), .valid (c.getSlotId h),
                 .getToken (c.getSlotId h)]⟩) := by
  have h1 : ¬ len < cfg.minPinLength := by omega
  have h2 : ¬ len > cfg.maxPinLength := by omega
  have h3 : ¬ CKU_SO = ut := fun e => hso e.symm
  have h4 : ¬ CKU_USER = ut := fun e => hus e.symm
  simp [login, World.call, World.cache, World.store, hf, hv, ht, h1, h2, h3, h4]

theorem login_calls_find_first (env : Env) (cfg : Config) (c : SessionCache) (tr : List Call)
    (h ut : Nat) (pin : List Nat) (len : Nat)
    (hlo : cfg.minPinLength ≤ len) (hhi : len ≤ cfg.maxPinLength) :
    ∃ rv c2 d, login env cfg ⟨true, some c, tr⟩ h ut (some pin) len =
      (rv, ⟨true, some c2, tr ++ Call.find h :: d⟩) := by
  by_cases hf : c.find h = true
  · by_cases hv : env.slotValid (c.getSlotId h) = true
    · by_cases ht : env.slotToken (c.getSlotId h) = true
      · by_cases hso : ut = CKU_SO
        · subst hso
          by_cases hro : c.sessionStateExists (c.getSlotId h) SessionState.ROPublic = true
          · exact ⟨_, _, _, login_run_so_blocked env cfg c tr h pin len hlo hhi hf hv ht hro⟩
          · exact ⟨_, _, _, login_run_so env cfg c tr h pin len hlo hhi hf hv ht
              (by simpa using hro)⟩
        · by_cases hus : ut = CKU_USER
          · subst hus
            exact ⟨_, _, _, login_run_user env cfg c tr h pin len hlo hhi hf hv ht⟩
          · exact ⟨_, _, _, login_run_other env cfg c tr h ut pin len hso hus hlo hhi hf hv ht⟩
      · exact ⟨_, _, _, login_run_noToken env cfg c tr h ut pin len hlo hhi hf hv
          (by simpa using ht)⟩
    · exact ⟨_, _, _, login_run_noSlot env cfg c tr h ut pin len hlo hhi hf (by simpa using hv)⟩
  · exact ⟨_, _, _, login_run_noHandle env cfg c tr h ut pin len hlo hhi (by simpa using hf)⟩


/-- C11: on an initialized provider with a non-null pin, a credential length
strictly below `minPinLength` or strictly above `maxPinLength` gives
`CKR_PIN_LEN_RANGE` (nothing else happens), whatever the handle and the role
are; a length within the bounds, the bounds included, passes the length check:
the call goes on to look the handle up.  For the two bounds themselves this is
stated for a configuration with `minPinLength ≤ maxPinLength`. -/
theorem login_pin_length_bounds (env : Env) (cfg : Config) (w : World) (h ut : Nat)
    (pin : List Nat) (len : Nat)
    (hi : w.isInitialized = true) (hc : w.gSessionCache.isSome = true) :
    ((len < cfg.minPinLength ∨ len > cfg.maxPinLength) →
      login env cfg w h ut (some pin) len = (CKR_PIN_LEN_RANGE, w)) ∧
    (cfg.minPinLength ≤ len → len ≤ cfg.maxPinLength →
      (callsOf w (login env cfg w h ut (some pin) len).2).head? = some (Call.find h)) ∧
    (cfg.minPinLength ≤ cfg.maxPinLength →
      (callsOf w (login env cfg w h ut (some pin) cfg.minPinLength).2).head? =
        some (Call.find h) ∧
      (callsOf w (login env cfg w h ut (some pin) cfg.maxPinLength).2).head? =
        some (Call.find h)) := by
  have key : ∀ n, cfg.minPinLength ≤ n → n ≤ cfg.maxPinLength →
      (callsOf w (login env cfg w h ut (some pin) n).2).head? = some (Call.find h) := by
    intro n hlo hhi
    obtain ⟨i, g, tr⟩ := w
    simp only at hi hc
    subst hi
    cases g with
    | none => simp at hc
    | some c =>
      obtain ⟨rv, c2, d, hrun⟩ := login_calls_find_first env cfg c tr h ut pin n hlo hhi
      rw [hrun]
      simp [callsOf_append]
  exact ⟨login_run_pinLen env cfg w h ut pin len hi hc, key len,
    fun hmm => ⟨key _ le_rfl hmm, key _ hmm le_rfl⟩⟩

/-- Witness for C11: with bounds 4 and 8, lengths 3 and 9 are rejected, lengths
4 and 8 reach the handle lookup. -/
theorem login_pin_length_bounds_witness :
    login exampleEnv exampleConfig examplePublicRO 1 CKU_USER (some examplePin) 3 =
      (CKR_PIN_LEN_RANGE, examplePublicRO) ∧
    login exampleEnv exampleConfig examplePublicRO 1 CKU_USER (some examplePin) 9 =
      (CKR_PIN_LEN_RANGE, examplePublicRO) ∧
    (callsOf examplePublicRO
      (login exampleEnv exampleConfig examplePublicRO 1 CKU_USER (some examplePin)
        exampleConfig.minPinLength).2).head? = some (Call.find 1) ∧
    (callsOf examplePublicRO
      (login exampleEnv exampleConfig examplePublicRO 1 CKU_USER (some examplePin)
        exampleConfig.maxPinLength).2).head? = some (Call.find 1) :=
  ⟨(login_pin_length_bounds exampleEnv exampleConfig examplePublicRO 1 CKU_USER examplePin 3
      (by decide) (by decide)).1 (by decide),
   (login_pin_length_bounds exampleEnv exampleConfig examplePublicRO 1 CKU_USER examplePin 9
      (by decide) (by decide)).1 (by decide),
   (login_pin_length_bounds exampleEnv exampleConfig examplePublicRO 1 CKU_USER examplePin 4
      (by decide) (by decide)).2.2 (by decide)⟩

/-- C12: a login whose role is neither user nor security officer, on an
initialized provider with a non-null pin, a length in bounds and a live handle
on a valid slot with a token, returns `CKR_USER_TYPE_INVALID`; `Token::login` is
not invoked and the registry is as before. -/
theorem login_unsupported_role (env : Env) (cfg : Config) (w : World) (c : SessionCache)
    (h userType : Nat) (pin : List Nat) (len : Nat)
    (hso : userType ≠ CKU_SO) (hus : userType ≠ CKU_USER)
    (hi : w.isInitialized = true) (hc : w.gSessionCache = some c)
    (hlo : cfg.minPinLength ≤ len) (hhi : len ≤ cfg.maxPinLength)
    (hf : c.find h = true) (hv : env.slotValid (c.getSlotId h) = true)
    (ht : env.slotToken (c.getSlotId h) = true) :
    (login env cfg w h userType (some pin) len).1 = CKR_USER_TYPE_INVALID ∧
    (callsOf w (login env cfg w h userType (some pin) len).2).countP Call.isTokenLogin = 0 ∧
    (login env cfg w h userType (some pin) len).2.gSessionCache = some c := by
  obtain ⟨i, g, tr⟩ := w
  simp only at hi hc
  subst hi hc
  rw [login_run_other env cfg c tr h userType pin len hso hus hlo hhi hf hv ht]
  simp [callsOf_append, Call.isTokenLogin]

/-- Witness for C12: the role `CKU_CONTEXT_SPECIFIC` is refused. -/
theorem login_unsupported_role_witness :
    (login exampleEnv exampleConfig examplePublicRO 1 CKU_CONTEXT_SPECIFIC
      (some examplePin) 4).1 = CKR_USER_TYPE_INVALID ∧
    (callsOf examplePublicRO (login exampleEnv exampleConfig examplePublicRO 1
      CKU_CONTEXT_SPECIFIC (some examplePin) 4).2).countP Call.isTokenLogin = 0 ∧
    (login exampleEnv exampleConfig examplePublicRO 1 CKU_CONTEXT_SPECIFIC
      (some examplePin) 4).2.gSessionCache = some examplePublicRO.cache :=
  login_unsupported_role exampleEnv exampleConfig examplePublicRO examplePublicRO.cache 1
    CKU_CONTEXT_SPECIFIC examplePin 4 (by decide) (by decide) (by decide) (by decide)
    (by decide) (by decide) (by decide) (by decide) (by decide)

/-- C18: whenever the controller itself rejects a login (null pin, length out
of bounds, unknown handle, invalid slot, missing token, a security-officer
login with a `PublicRO` session on the slot, or an unsupported role), the result
is one of `CKR_ARGUMENTS_BAD`, `CKR_PIN_LEN_RANGE`, `CKR_SESSION_HANDLE_INVALID`,
`CKR_TOKEN_NOT_PRESENT`, `CKR_USER_TYPE_INVALID`, `CKR_SESSION_READ_ONLY_EXISTS`,
`Token::login` is not invoked, and the registry (every session's state) is
unchanged: the checks come first and have no partial effect. -/
theorem login_rejection_has_no_effect (env : Env) (cfg : Config) (w : World) (c : SessionCache)
    (h userType : Nat) (pPin : Option (List Nat)) (len : Nat)
    (hi : w.isInitialized = true) (hc : w.gSessionCache = some c)
    (hrej : pPin = none ∨ len < cfg.minPinLength ∨ len > cfg.maxPinLength ∨
      c.find h = false ∨ env.slotValid (c.getSlotId h) = false ∨
      env.slotToken (c.getSlotId h) = false ∨
      (userType = CKU_SO ∧
        ∃ s ∈ c.sessions, s.slotId = c.getSlotId h ∧ s.state = SessionState.ROPublic) ∨
      (userType ≠ CKU_SO ∧ userType ≠ CKU_USER)) :
    (login env cfg w h userType pPin len).1 ∈
      [CKR_ARGUMENTS_BAD, CKR_PIN_LEN_RANGE, CKR_SESSION_HANDLE_INVALID, CKR_TOKEN_NOT_PRESENT,
       CKR_USER_TYPE_INVALID, CKR_SESSION_READ_ONLY_EXISTS] ∧
    (callsOf w (login env cfg w h userType pPin len).2).countP Call.isTokenLogin = 0 ∧
    (login env cfg w h userType pPin len).2.gSessionCache = w.gSessionCache := by
  obtain ⟨i, g, tr⟩ := w
  simp only at hi hc
  subst hi hc
  cases pPin with
  | none => simp [login, callsOf_self]
  | some pin =>
    by_cases hlen : len < cfg.minPinLength ∨ len > cfg.maxPinLength
    · rw [login_run_pinLen env cfg ⟨true, some c, tr⟩ h userType pin len rfl rfl hlen]
      simp [callsOf_self]
    · have hlo : cfg.minPinLength ≤ len := by omega
      have hhi : len ≤ cfg.maxPinLength := by omega
      by_cases hf : c.find h = true
      · by_cases hv : env.slotValid (c.getSlotId h) = true
        · by_cases ht : env.slotToken (c.getSlotId h) = true
          · by_cases hso : userType = CKU_SO
            · subst hso
              by_cases hro : c.sessionStateExists (c.getSlotId h) SessionState.ROPublic = true
              · rw [login_run_so_blocked env cfg c tr h pin len hlo hhi hf hv ht hro]
                simp [callsOf_append, Call.isTokenLogin]
              · exfalso
                rw [sessionStateExists_iff] at hro
                rcases hrej with hr | hr | hr | hr | hr | hr | hr | hr
                · cases hr
                · omega
                · omega
                · simp [hf] at hr
                · simp [hv] at hr
                · simp [ht] at hr
                · exact hro hr.2
                · exact hr.1 rfl
            · by_cases hus : userType = CKU_USER
              · exfalso
                rcases hrej with hr | hr | hr | hr | hr | hr | hr | hr
                · cases hr
                · omega
                · omega
                · simp [hf] at hr
                · simp [hv] at hr
                · simp [ht] at hr
                · exact hso hr.1
                · exact hr.2 hus
              · rw [login_run_other env cfg c tr h userType pin len hso hus hlo hhi hf hv ht]
                simp [callsOf_append, Call.isTokenLogin]
          · rw [login_run_noToken env cfg c tr h userType pin len hlo hhi hf hv
              (by simpa using ht)]
            simp [callsOf_append, Call.isTokenLogin]
        · rw [login_run_noSlot env cfg c tr h userType pin len hlo hhi hf (by simpa using hv)]
          simp [callsOf_append, Call.isTokenLogin]
      · rw [login_run_noHandle env cfg c tr h userType pin len hlo hhi (by simpa using hf)]
        simp [callsOf_append, Call.isTokenLogin]

/-- Witness for C18: a security-officer login with a `PublicRO` session open is
rejected before the token is asked, and the registry is untouched. -/
theorem login_rejection_has_no_effect_witness :
    (login exampleEnv exampleConfig examplePublicRO 1 CKU_SO (some examplePin) 4).1 ∈
      [CKR_ARGUMENTS_BAD, CKR_PIN_LEN_RANGE, CKR_SESSION_HANDLE_INVALID, CKR_TOKEN_NOT_PRESENT,
       CKR_USER_TYPE_INVALID, CKR_SESSION_READ_ONLY_EXISTS] ∧
    (callsOf examplePublicRO (login exampleEnv exampleConfig examplePublicRO 1 CKU_SO
      (some examplePin) 4).2).countP Call.isTokenLogin = 0 ∧
    (login exampleEnv exampleConfig examplePublicRO 1 CKU_SO (some examplePin) 4).2.gSessionCache =
      examplePublicRO.gSessionCache :=
  login_rejection_has_no_effect exampleEnv exampleConfig examplePublicRO examplePublicRO.cache
    1 CKU_SO (some examplePin) 4 (by decide) (by decide) (by decide)

/-! ## Further claims about `openSession` -/


theorem openSession_run_argsBad (env : Env) (cfg : Config) (w : World) (slotID flags : Nat)
    (pApplication notify phSession : Option Nat)
    (hi : w.isInitialized = true) (hc : w.gSessionCache.isSome = true)
    (hbad : phSession = none ∨ pApplication ≠ none ∨ notify ≠ none) :
    openSession env cfg w slotID flags pApplication notify phSession =
      (CKR_ARGUMENTS_BAD, w, phSession) := by
  have hg : (!w.isInitialized || w.gSessionCache.isNone) = false := by
    cases hg : w.gSessionCache <;> simp [hi, hg] at hc ⊢
  have hb : (phSession.isNone || pApplication.isSome || notify.isSome) = true := by
    rcases hbad with hb | hb | hb
    · simp [hb]
    · cases pApplication <;> simp at hb ⊢
    · cases notify <;> simp at hb ⊢
  simp [openSession, hg, hb]

theorem openSession_run_noSlot (env : Env) (cfg : Config) (c : SessionCache) (tr : List Call)
    (slotID flags v : Nat) (hv : env.slotValid slotID = false) :
    openSession env cfg ⟨true, some c, tr⟩ slotID flags none none (some v) =
      (CKR_SLOT_ID_INVALID, ⟨true, some c, tr ++ [.slot slotID, .valid slotID]⟩, some v) := by
  simp [openSession, World.call, hv]

theorem openSession_run_noToken (env : Env) (cfg : Config) (c : SessionCache) (tr : List Call)
    (slotID flags v : Nat) (hv : env.slotValid slotID = true)
    (ht : env.slotToken slotID = false) :
    openSession env cfg ⟨true, some c, tr⟩ slotID flags none none (some v) =
      (CKR_TOKEN_NOT_PRESENT,
        ⟨true, some c, tr ++ [.slot slotID, .valid slotID, .getToken slotID]⟩, some v) := by
  simp [openSession, World.call, hv, ht]

theorem openSession_run_parallel (env : Env) (cfg : Config) (c : SessionCache) (tr : List Call)
    (slotID flags v : Nat) (hv : env.slotValid slotID = true)
    (ht : env.slotToken slotID = true) (hser : CKF_SERIAL_SESSION &&& flags = 0) :
    openSession env cfg ⟨true, some c, tr⟩ slotID flags none none (some v) =
      (CKR_SESSION_PARALLEL_NOT_SUPPORTED,
        ⟨true, some c, tr ++ [.slot slotID, .valid slotID, .getToken slotID]⟩, some 0) := by
  simp [openSession, World.call, hv, ht, hser]

theorem openSession_run_create (env : Env) (cfg : Config) (c : SessionCache) (tr : List Call)
    (slotID flags v : Nat) (hv : env.slotValid slotID = true)
    (ht : env.slotToken slotID = true) (hser : CKF_SERIAL_SESSION &&& flags ≠ 0)
    (hcount : c.count ≠ cfg.maxSessionsSupported) :
    openSession env cfg ⟨true, some c, tr⟩ slotID flags none none (some v) =
      ((env.createSession c slotID flags).1,
        ⟨true, some (env.createSession c slotID flags).2.2,
          tr ++ [.slot slotID, .valid slotID, .getToken slotID, .count,
                 .createSession slotID flags]⟩,
        if (env.createSession c slotID flags).1 = CKR_OK then
          some (env.createSession c slotID flags).2.1 else some 0) := by
  by_cases hr : (env.createSession c slotID flags).1 = CKR_OK <;>
    simp [openSession, World.call, World.cache, World.store, hv, ht, hser, hcount, hr]


/-- C13: on an initialized provider, an `openSession` call whose output handle
pointer is null, or whose application pointer or notify callback is non-null,
returns `CKR_ARGUMENTS_BAD` and leaves the world (registry and trace: no session
is created, no collaborator is called) and the output handle as they were,
regardless of slot, flags and session count. -/
theorem openSession_bad_arguments (env : Env) (cfg : Config) (w : World) (slotID flags : Nat)
    (pApplication notify phSession : Option Nat)
    (hi : w.isInitialized = true) (hc : w.gSessionCache.isSome = true)
    (hbad : phSession = none ∨ pApplication ≠ none ∨ notify ≠ none) :
    openSession env cfg w slotID flags pApplication notify phSession =
      (CKR_ARGUMENTS_BAD, w, phSession) :=
  openSession_run_argsBad env cfg w slotID flags pApplication notify phSession hi hc hbad

/-- Witness for C13: a notify callback is supplied. -/
theorem openSession_bad_arguments_witness :
    openSession exampleEnv exampleConfig exampleWorld 0 CKF_SERIAL_SESSION none (some 1)
      (some 7) = (CKR_ARGUMENTS_BAD, exampleWorld, some 7) :=
  openSession_bad_arguments exampleEnv exampleConfig exampleWorld 0 CKF_SERIAL_SESSION none
    (some 1) (some 7) (by decide) (by decide) (by decide)

/-- C14 (as stated, refuted): on an initialized provider, with a non-null output
pointer, null application and notify pointers and flags without the
serial-session bit, a call on an invalid slot returns `CKR_SLOT_ID_INVALID`, not
`CKR_SESSION_PARALLEL_NOT_SUPPORTED`: the slot is checked first (lines 57-69). -/
theorem openSession_parallel_counterexample :
    exampleWorld.isInitialized = true ∧
    exampleWorld.gSessionCache.isSome = true ∧
    CKF_SERIAL_SESSION &&& 0 = 0 ∧
    (openSession exampleEnv exampleConfig exampleWorld 1 0 none none (some 7)).1 =
      CKR_SLOT_ID_INVALID ∧
    (openSession exampleEnv exampleConfig exampleWorld 1 0 none none (some 7)).1 ≠
      CKR_SESSION_PARALLEL_NOT_SUPPORTED := by
  decide

/-- C14 (amended): on an initialized provider, with a non-null output pointer,
null application and notify pointers, a valid slot that has a token, and flags
without the serial-session bit, `openSession` returns
`CKR_SESSION_PARALLEL_NOT_SUPPORTED`; `createSession` is not invoked and the
registry is as before. -/
theorem openSession_parallel_not_supported (env : Env) (cfg : Config) (w : World)
    (c : SessionCache) (slotID flags v : Nat)
    (hi : w.isInitialized = true) (hc : w.gSessionCache = some c)
    (hv : env.slotValid slotID = true) (ht : env.slotToken slotID = true)
    (hser : CKF_SERIAL_SESSION &&& flags = 0) :
    (openSession env cfg w slotID flags none none (some v)).1 =
      CKR_SESSION_PARALLEL_NOT_SUPPORTED ∧
    (∀ s f, Call.createSession s f ∉
      callsOf w (openSession env cfg w slotID flags none none (some v)).2.1) ∧
    (openSession env cfg w slotID flags none none (some v)).2.1.gSessionCache = some c := by
  obtain ⟨i, g, tr⟩ := w
  simp only at hi hc
  subst hi hc
  rw [openSession_run_parallel env cfg c tr slotID flags v hv ht hser]
  simp [callsOf_append]

/-- Witness for C14 (amended): a read-write session without the serial bit on
slot 0. -/
theorem openSession_parallel_not_supported_witness :
    (openSession exampleEnv exampleConfig exampleWorld 0 CKF_RW_SESSION none none (some 7)).1 =
      CKR_SESSION_PARALLEL_NOT_SUPPORTED ∧
    (∀ s f, Call.createSession s f ∉ callsOf exampleWorld
      (openSession exampleEnv exampleConfig exampleWorld 0 CKF_RW_SESSION none none
        (some 7)).2.1) ∧
    (openSession exampleEnv exampleConfig exampleWorld 0 CKF_RW_SESSION none none
      (some 7)).2.1.gSessionCache = some exampleWorld.cache :=
  openSession_parallel_not_supported exampleEnv exampleConfig exampleWorld exampleWorld.cache
    0 CKF_RW_SESSION 7 (by decide) (by decide) (by decide) (by decide) (by decide)

/-- C19: for an `openSession` call with a non-null output pointer holding `v`:
on success the output handle is the identifier produced by the registry's
`createSession`; when the call fails with `CKR_SESSION_PARALLEL_NOT_SUPPORTED`,
with `CKR_SESSION_COUNT`, or with an error of `createSession`, the output handle
is 0; and when it fails earlier (not initialized, bad arguments, invalid slot,
no token) the output handle still holds `v`. -/
theorem openSession_output_handle (env : Env) (cfg : Config) (w : World)
    (slotID flags : Nat) (pApplication notify : Option Nat) (v : Nat) :
    ((openSession env cfg w slotID flags pApplication notify (some v)).1 = CKR_OK →
      (openSession env cfg w slotID flags pApplication notify (some v)).2.2 =
        some (env.createSession w.cache slotID flags).2.1) ∧
    ((w.isInitialized = false ∨ w.gSessionCache = none ∨ pApplication ≠ none ∨
        notify ≠ none ∨ env.slotValid slotID = false ∨ env.slotToken slotID = false) →
      (openSession env cfg w slotID flags pApplication notify (some v)).1 ∈
        [CKR_CRYPTOKI_NOT_INITIALIZED, CKR_ARGUMENTS_BAD, CKR_SLOT_ID_INVALID,
         CKR_TOKEN_NOT_PRESENT] ∧
      (openSession env cfg w slotID flags pApplication notify (some v)).2.2 = some v) ∧
    (w.isInitialized = true → w.gSessionCache ≠ none → pApplication = none → notify = none →
      env.slotValid slotID = true → env.slotToken slotID = true →
      (CKF_SERIAL_SESSION &&& flags = 0 →
        (openSession env cfg w slotID flags pApplication notify (some v)).1 =
          CKR_SESSION_PARALLEL_NOT_SUPPORTED ∧
        (openSession env cfg w slotID flags pApplication notify (some v)).2.2 = some 0) ∧
      (CKF_SERIAL_SESSION &&& flags ≠ 0 → w.cache.count = cfg.maxSessionsSupported →
        (openSession env cfg w slotID flags pApplication notify (some v)).1 =
          CKR_SESSION_COUNT ∧
        (openSession env cfg w slotID flags pApplication notify (some v)).2.2 = some 0) ∧
      (CKF_SERIAL_SESSION &&& flags ≠ 0 → w.cache.count ≠ cfg.maxSessionsSupported →
        (openSession env cfg w slotID flags pApplication notify (some v)).1 =
          (env.createSession w.cache slotID flags).1 ∧
        ((env.createSession w.cache slotID flags).1 ≠ CKR_OK →
          (openSession env cfg w slotID flags pApplication notify (some v)).2.2 = some 0) ∧
        ((env.createSession w.cache slotID flags).1 = CKR_OK →
          (openSession env cfg w slotID flags pApplication notify (some v)).2.2 =
            some (env.createSession w.cache slotID flags).2.1))) := by
  obtain ⟨i, g, tr⟩ := w
  cases i with
  | false => simp [openSession, CKR_OK, CKR_CRYPTOKI_NOT_INITIALIZED]
  | true =>
    cases g with
    | none => simp [openSession, CKR_OK, CKR_CRYPTOKI_NOT_INITIALIZED]
    | some c =>
      by_cases hbad : pApplication ≠ none ∨ notify ≠ none
      · rw [openSession_run_argsBad env cfg ⟨true, some c, tr⟩ slotID flags pApplication notify
          (some v) rfl rfl (Or.inr hbad)]
        refine ⟨by simp [CKR_OK, CKR_ARGUMENTS_BAD], fun _ => by simp, ?_⟩
        intro _ _ ha hn
        rcases hbad with hb | hb
        · exact absurd ha hb
        · exact absurd hn hb
      · have ha : pApplication = none := by
          by_contra hx; exact hbad (Or.inl hx)
        have hn : notify = none := by
          by_contra hx; exact hbad (Or.inr hx)
        subst ha hn
        simp only [World.cache, Option.getD_some]
        by_cases hv : env.slotValid slotID = true
        · by_cases ht : env.slotToken slotID = true
          · by_cases hser : CKF_SERIAL_SESSION &&& flags = 0
            · rw [openSession_run_parallel env cfg c tr slotID flags v hv ht hser]
              simp [hv, ht, hser, CKR_OK, CKR_SESSION_PARALLEL_NOT_SUPPORTED]
            · by_cases hcount : c.count = cfg.maxSessionsSupported
              · rw [openSession_run_full env cfg c tr slotID flags v hv ht hser hcount]
                simp [hv, ht, hser, hcount, CKR_OK, CKR_SESSION_COUNT]
              · rw [openSession_run_create env cfg c tr slotID flags v hv ht hser hcount]
                by_cases hr : (env.createSession c slotID flags).1 = CKR_OK <;>
                  simp [hv, ht, hser, hcount, hr]
          · rw [openSession_run_noToken env cfg c tr slotID flags v hv (by simpa using ht)]
            simp [hv, ht, CKR_OK, CKR_TOKEN_NOT_PRESENT]
        · rw [openSession_run_noSlot env cfg c tr slotID flags v (by simpa using hv)]
          simp [hv, CKR_OK, CKR_SLOT_ID_INVALID]

/-- Witness for C19: a successful open writes the new handle 1; an open without
the serial bit writes 0; an open on an invalid slot leaves 7 in place. -/
theorem openSession_output_handle_witness :
    (openSession exampleEnv exampleConfig exampleWorld 0 CKF_SERIAL_SESSION none none
      (some 7)).2.2 = some (exampleEnv.createSession exampleWorld.cache 0 CKF_SERIAL_SESSION).2.1 ∧
    (openSession exampleEnv exampleConfig exampleWorld 0 CKF_RW_SESSION none none
      (some 7)).2.2 = some 0 ∧
    (openSession exampleEnv exampleConfig exampleWorld 1 CKF_SERIAL_SESSION none none
      (some 7)).2.2 = some 7 :=
  ⟨(openSession_output_handle exampleEnv exampleConfig exampleWorld 0 CKF_SERIAL_SESSION
      none none 7).1 (by decide),
   (((openSession_output_handle exampleEnv exampleConfig exampleWorld 0 CKF_RW_SESSION
      none none 7).2.2 (by decide) (by decide) rfl rfl (by decide) (by decide)).1
      (by decide)).2,
   ((openSession_output_handle exampleEnv exampleConfig exampleWorld 1 CKF_SERIAL_SESSION
      none none 7).2.1 (Or.inr (Or.inr (Or.inr (Or.inr (Or.inl (by decide))))))).2⟩

/-! ## Claims about `getSessionInfo`, `logout` and the removal step of `closeSession` -/


theorem getSessionInfo_run (c : SessionCache) (tr : List Call) (h : Nat) (pInfo : SessionInfo) :
    getSessionInfo ⟨true, some c, tr⟩ h pInfo =
      ((c.getSessionInfo h pInfo).1, ⟨true, some c, tr ++ [.getSessionInfo h]⟩,
        (c.getSessionInfo h pInfo).2) := by
  simp [getSessionInfo, World.call, World.cache]

theorem logout_run_noHandle (env : Env) (c : SessionCache) (tr : List Call) (h : Nat)
    (hf : c.find h = false) :
    logout env ⟨true, some c, tr⟩ h =
      (CKR_SESSION_HANDLE_INVALID, ⟨true, some c, tr ++ [.find h]⟩) := by
  simp [logout, World.call, World.cache, hf]

theorem logout_run_noSlot (env : Env) (c : SessionCache) (tr : List Call) (h : Nat)
    (hf : c.find h = true) (hv : env.slotValid (c.getSlotId h) = false) :
    logout env ⟨true, some c, tr⟩ h =
      (CKR_SESSION_HANDLE_INVALID,
        ⟨true, some c,
          tr ++ [.find h, .getSlotId h, .slot (c.getSlotId h), .valid (c.getSlotId h)]⟩) := by
  simp [logout, World.call, World.cache, hf, hv]

theorem logout_run_noToken (env : Env) (c : SessionCache) (tr : List Call) (h : Nat)
    (hf : c.find h = true) (hv : env.slotValid (c.getSlotId h) = true)
    (ht : env.slotToken (c.getSlotId h) = false) :
    logout env ⟨true, some c, tr⟩ h =
      (CKR_TOKEN_NOT_PRESENT,
        ⟨true, some c,
          tr ++ [.find h, .getSlotId h, .slot (c.getSlotId h), .valid (c.getSlotId h),
                 .getToken (c.getSlotId h)]⟩) := by
  simp [logout, World.call, World.cache, hf, hv, ht]

theorem closeSession_run_noHandle (env : Env) (c : SessionCache) (tr : List Call) (h : Nat)
    (hf : c.find h = false) :
    closeSession env ⟨true, some c, tr⟩ h =
      (CKR_SESSION_HANDLE_INVALID, ⟨true, some c, tr ++ [.find h]⟩) := by
  simp [closeSession, World.call, World.cache, hf]

/-- C15: on an initialized provider, `getSessionInfo(h, out)` returns exactly
what the registry's `getSessionInfo(h, out)` returns, status and output alike
(`CKR_SESSION_HANDLE_INVALID` when `h` is unknown); the registry with every
session's state is unchanged, and the only call made is the registry query, so
the token and its login state are not touched. -/
theorem getSessionInfo_delegates (w : World) (c : SessionCache) (h : Nat) (pInfo : SessionInfo)
    (hi : w.isInitialized = true) (hc : w.gSessionCache = some c) :
    (getSessionInfo w h pInfo).1 = (c.getSessionInfo h pInfo).1 ∧
    (getSessionInfo w h pInfo).2.2 = (c.getSessionInfo h pInfo).2 ∧
    (c.find h = false →
      (getSessionInfo w h pInfo).1 = CKR_SESSION_HANDLE_INVALID ∧
      (getSessionInfo w h pInfo).2.2 = pInfo) ∧
    (getSessionInfo w h pInfo).2.1.gSessionCache = w.gSessionCache ∧
    callsOf w (getSessionInfo w h pInfo).2.1 = [Call.getSessionInfo h] := by
  obtain ⟨i, g, tr⟩ := w
  simp only at hi hc
  subst hi hc
  rw [getSessionInfo_run]
  refine ⟨rfl, rfl, ?_, rfl, by simp [callsOf_append]⟩
  intro hf
  have hl : c.lookup h = none := by
    simpa [SessionCache.find] using hf
  simp [SessionCache.getSessionInfo, hl]

/-- Witness for C15: handle 1 is reported as `UserRW`; handle 5 was never
opened and is reported invalid. -/
theorem getSessionInfo_delegates_witness :
    (getSessionInfo exampleUserRW 1 ⟨9, SessionState.ROPublic, 9⟩).1 = CKR_OK ∧
    (getSessionInfo exampleUserRW 1 ⟨9, SessionState.ROPublic, 9⟩).2.2 =
      ⟨0, SessionState.UserRW, 6⟩ ∧
    (getSessionInfo exampleUserRW 5 ⟨9, SessionState.ROPublic, 9⟩).1 =
      CKR_SESSION_HANDLE_INVALID ∧
    (getSessionInfo exampleUserRW 5 ⟨9, SessionState.ROPublic, 9⟩).2.1.gSessionCache =
      exampleUserRW.gSessionCache :=
  have a := getSessionInfo_delegates exampleUserRW exampleUserRW.cache 1
    ⟨9, SessionState.ROPublic, 9⟩ (by decide) (by decide)
  have b := getSessionInfo_delegates exampleUserRW exampleUserRW.cache 5
    ⟨9, SessionState.ROPublic, 9⟩ (by decide) (by decide)
  ⟨a.1.trans (by decide), a.2.1.trans (by decide), (b.2.2.1 (by decide)).1, b.2.2.2.1⟩

/-- C16: on an initialized provider, `logout(h)` returns
`CKR_SESSION_HANDLE_INVALID` without invoking `Token::logout` when `h` is not
live or its slot is not valid; it returns `CKR_TOKEN_NOT_PRESENT` when the slot
is valid but has no token; otherwise `Token::logout` is invoked exactly once and
`logout` returns exactly its result. -/
theorem logout_outcomes (env : Env) (w : World) (c : SessionCache) (h : Nat)
    (hi : w.isInitialized = true) (hc : w.gSessionCache = some c) :
    ((c.find h = false ∨ env.slotValid (c.getSlotId h) = false) →
      (logout env w h).1 = CKR_SESSION_HANDLE_INVALID ∧
      (callsOf w (logout env w h).2).countP Call.isTokenLogout = 0) ∧
    (c.find h = true → env.slotValid (c.getSlotId h) = true →
      env.slotToken (c.getSlotId h) = false →
      (logout env w h).1 = CKR_TOKEN_NOT_PRESENT ∧
      (callsOf w (logout env w h).2).countP Call.isTokenLogout = 0) ∧
    (c.find h = true → env.slotValid (c.getSlotId h) = true →
      env.slotToken (c.getSlotId h) = true →
      (callsOf w (logout env w h).2).countP Call.isTokenLogout = 1 ∧
      (callsOf w (logout env w h).2).count (Call.tokenLogout (c.getSlotId h)) = 1 ∧
      (logout env w h).1 = env.tokenLogout (c.getSlotId h)) := by
  obtain ⟨i, g, tr⟩ := w
  simp only at hi hc
  subst hi hc
  refine ⟨?_, ?_, ?_⟩
  · intro hbad
    by_cases hf : c.find h = true
    · have hv : env.slotValid (c.getSlotId h) = false := by
        rcases hbad with hb | hb
        · simp [hf] at hb
        · exact hb
      rw [logout_run_noSlot env c tr h hf hv]
      simp [callsOf_append, Call.isTokenLogout]
    · rw [logout_run_noHandle env c tr h (by simpa using hf)]
      simp [callsOf_append, Call.isTokenLogout]
  · intro hf hv ht
    rw [logout_run_noToken env c tr h hf hv ht]
    simp [callsOf_append, Call.isTokenLogout]
  · intro hf hv ht
    rw [logout_run env c tr h hf hv ht]
    simp [callsOf_append, Call.isTokenLogout, List.count_cons]

/-- Witness for C16: an unknown handle is refused without a token call; for the
logged-in session the token's refusal to log out is returned as it is. -/
theorem logout_outcomes_witness :
    (logout exampleEnv exampleUserRW 5).1 = CKR_SESSION_HANDLE_INVALID ∧
    (callsOf exampleUserRW (logout exampleEnv exampleUserRW 5).2).countP
      Call.isTokenLogout = 0 ∧
    (callsOf exampleUserRW (logout exampleEnvLogoutFails exampleUserRW 1).2).countP
      Call.isTokenLogout = 1 ∧
    (logout exampleEnvLogoutFails exampleUserRW 1).1 =
      exampleEnvLogoutFails.tokenLogout (exampleUserRW.cache.getSlotId 1) :=
  have a := (logout_outcomes exampleEnv exampleUserRW exampleUserRW.cache 5
    (by decide) (by decide)).1 (Or.inl (by decide))
  have b := (logout_outcomes exampleEnvLogoutFails exampleUserRW exampleUserRW.cache 1
    (by decide) (by decide)).2.2 (by decide) (by decide) (by decide)
  ⟨a.1, a.2, b.1, b.2.2⟩

/-- C17: on an initialized provider, `closeSession(h)` for a handle that is not
live returns `CKR_SESSION_HANDLE_INVALID`, leaves the registry as it was and
makes no call but the lookup (the token is not touched).  For a live handle
whose checks and forced logout (if any) succeed, the registry's
`closeSession(h)` is invoked once, on the registry as the logout left it, and
the result is `CKR_OK` exactly when the registry reports that it removed the
session and `CKR_SESSION_CLOSED` exactly when it reports the handle gone; the
registry is left as the registry's `closeSession` left it. -/
theorem closeSession_handle_and_removal (env : Env) (w : World) (c : SessionCache) (h : Nat)
    (hi : w.isInitialized = true) (hc : w.gSessionCache = some c) :
    (c.find h = false →
      (closeSession env w h).1 = CKR_SESSION_HANDLE_INVALID ∧
      (closeSession env w h).2.gSessionCache = some c ∧
      callsOf w (closeSession env w h).2 = [Call.find h]) ∧
    (c.find h = true → env.slotValid (c.getSlotId h) = true →
      env.slotToken (c.getSlotId h) = true →
      (c.logoutRequired (c.getSlotId h) (some h) = true →
        env.tokenLogout (c.getSlotId h) = CKR_OK) →
      ((closeSession env w h).1 = CKR_OK ↔
        (env.closeSession (if c.logoutRequired (c.getSlotId h) (some h) = true then
          c.mapSlot (c.getSlotId h) logoutState else c) h).1 = true) ∧
      ((closeSession env w h).1 = CKR_SESSION_CLOSED ↔
        (env.closeSession (if c.logoutRequired (c.getSlotId h) (some h) = true then
          c.mapSlot (c.getSlotId h) logoutState else c) h).1 = false) ∧
      (callsOf w (closeSession env w h).2).count (Call.closeSession h) = 1 ∧
      (closeSession env w h).2.gSessionCache =
        some (env.closeSession (if c.logoutRequired (c.getSlotId h) (some h) = true then
          c.mapSlot (c.getSlotId h) logoutState else c) h).2) := by
  obtain ⟨i, g, tr⟩ := w
  simp only at hi hc
  subst hi hc
  refine ⟨?_, ?_⟩
  · intro hf
    rw [closeSession_run_noHandle env c tr h hf]
    simp [callsOf_append]
  · intro hf hv ht hlo
    by_cases hl : c.logoutRequired (c.getSlotId h) (some h) = true
    · rw [closeSession_run_forced_ok env c tr h hf hv ht hl (hlo hl), if_pos hl]
      cases hb : (env.closeSession (c.mapSlot (c.getSlotId h) logoutState) h).1 <;>
        simp [callsOf_append, List.count_cons, CKR_OK, CKR_SESSION_CLOSED]
    · rw [closeSession_run_plain env c tr h hf hv ht (by simpa using hl), if_neg hl]
      cases hb : (env.closeSession c h).1 <;>
        simp [callsOf_append, List.count_cons, CKR_OK, CKR_SESSION_CLOSED]

/-- Witness for C17: handle 5 is unknown; closing the logged-in session 1
succeeds when the registry removes it, and gives `CKR_SESSION_CLOSED` when the
registry reports the handle already gone. -/
theorem closeSession_handle_and_removal_witness :
    (closeSession exampleEnv exampleUserRW 5).1 = CKR_SESSION_HANDLE_INVALID ∧
    callsOf exampleUserRW (closeSession exampleEnv exampleUserRW 5).2 = [Call.find 5] ∧
    (closeSession exampleEnv exampleUserRW 1).1 = CKR_OK ∧
    (closeSession exampleEnvSessionGone exampleUserRW 1).1 = CKR_SESSION_CLOSED :=
  have a := (closeSession_handle_and_removal exampleEnv exampleUserRW exampleUserRW.cache 5
    (by decide) (by decide)).1 (by decide)
  have b := (closeSession_handle_and_removal exampleEnv exampleUserRW exampleUserRW.cache 1
    (by decide) (by decide)).2 (by decide) (by decide) (by decide) (by decide)
  have d := (closeSession_handle_and_removal exampleEnvSessionGone exampleUserRW
    exampleUserRW.cache 1 (by decide) (by decide)).2 (by decide) (by decide) (by decide)
    (by decide)
  ⟨a.1, a.2.2, b.1.2 (by decide), d.2.1.2 (by decide)⟩

end P11
